import Mathlib

/-!
Verification of the QuadraNet mesh-engine (Ragarnoy/quadranet) against its
natural-language specification.

The development shallowly embeds the Rust sources:
  * `src/device.rs`              — the mesh engine (`LoraDevice` methods)
  * `src/route.rs`               — `Route`, `LinkQuality`
  * `src/route/routing_table.rs` — `RoutingTable`, `RouteEntry`
  * `src/device/pending_ack.rs`  — `PendingAck`

The `Message` type used by `device.rs` (with `message_id`, `req_ack`,
`new_ack`, `new_discovery`, `set_message_id`, …) is not present in the
source tree (only an older `Intent`-based revision and the unit tests of
the current type are); it is modelled from the spec where so marked.
Likewise the `MessageQueue` implementation backing InQueue/OutQueue is
only declared as a trait in `src/device/collections.rs`; the queues are
modelled from the spec's FIFO contract.

Modelling conventions:
  * machine integers are `Nat`/`Int`; `u32` wrap is an explicit `% 2^32`;
    the one `u8` subtraction that can underflow (`original_ttl - ttl` in
    `process_message_internal`) is modelled as a checked subtraction
    returning `Option`, making the dispatch function partial exactly
    where the Rust code can panic/wrap;
  * `embassy_time::Instant` is a `Nat` (milliseconds); `Duration`
    comparisons in seconds divide by 1000 (`as_secs` truncates);
    `Instant::now()` calls within one engine pass are identified with the
    single `now` argument of the modelled function (the source reads the
    clock several times inside one pass; nothing verified here depends on
    the sub-millisecond drift between those reads);
  * `heapless::FnvIndexMap` is an insertion-ordered association list with
    unique keys; in-place value updates keep the position, inserts of new
    keys append, removal is modelled by erasure (the source's swap-remove
    only permutes iteration order, and no verified property depends on
    iteration order except the cleanup removal-list cutoff, which is
    exercised by cardinality);
  * the `f32` arithmetic inside the quality formulas is modelled with
    exact integer arithmetic truncating toward zero (Rust `as u16`/`as
    i16` casts truncate); no verified property depends on the at-most-1
    rounding difference;
  * radio transmission (`tx_message`) is modelled as appending to a list
    of transmitted messages that each engine operation returns; `defmt`
    logging and the `STATS_COUNTER` logging counter have no model.
-/

namespace Quadranet

/-- Node identifier; `NonZeroU8` in the source. Modelled as `Nat` with the
value `0` excluded by the few checks the source performs on raw bytes. -/
abbrev Uid := Nat

/-- Signal metadata captured on reception (`RxInfo` in `device.rs`). -/
structure RxInfo where
  rssi : Int
  snr : Int
  timestamp : Nat
deriving DecidableEq, Repr

/-- Payload data variants (`src/message/payload/data.rs`); the byte buffer
is a list of bytes, the text a string — their exact layout is irrelevant
to every verified property. -/
inductive DataType
  | Text (s : String)
  | Binary (bytes : List Nat)
deriving DecidableEq, Repr

/-- Command payloads (`src/message/payload/command.rs`). -/
inductive CommandType
  | SetConfig
deriving DecidableEq, Repr

/-- Acknowledgement payloads (`src/message/payload/ack.rs`). -/
inductive AckType
  | Success (message_id : Nat)
  | AckDiscovered (hops : Nat) (last_hop : Uid)
  | Failure (message_id : Nat)
deriving DecidableEq, Repr

/-- Route payloads (`src/message/payload/route.rs`); unused no-ops. -/
inductive RouteType
  | Error
  | Request
  | Response
deriving DecidableEq, Repr

/-- Discovery payload (`src/message/payload/discovery.rs`); the
capabilities byte is carried opaquely. -/
structure DiscoveryType where
  original_ttl : Nat
  sender_capabilities : Nat
deriving DecidableEq, Repr

/-- Tagged payload union (`src/message/payload.rs`). -/
inductive Payload
  | Data (d : DataType)
  | Command (c : CommandType)
  | Ack (a : AckType)
  | Route (r : RouteType)
  | Discovery (d : DiscoveryType)
deriving DecidableEq, Repr

/-- MAX_TTL = 5 (spec §6, constants table). -/
def MAX_TTL : Nat := 5

/-- 2^32, the modulus of the `u32` message-id counter. -/
def U32 : Nat := 4294967296

/-- Modelled from the spec: the current `Message` record (spec §3) —
`message_id` (u32), `source_id`, optional `destination_id`, `ttl`,
`req_ack`, tagged `payload`. The revision of `message.rs` present in the
tree is an older `Intent`-based type; the fields and the accessor names
below follow the spec and the unit tests in `src/message/test.rs`. -/
structure Message where
  message_id : Nat
  source_id : Uid
  destination_id : Option Uid
  ttl : Nat
  req_ack : Bool
  payload : Payload
deriving DecidableEq, Repr

/-- Modelled from the spec: `Message::new(source, destination, payload,
ttl, req_ack)`. The message id is drawn from the process-wide monotonic
counter (spec §3, §4.1); the caller passes the counter's current value
and bumps it. That `Message::new` self-assigns a fresh id is witnessed in
`device.rs` by `retry_message`, which must call `set_message_id`
afterwards to restore the original id. TTL is clamped to MAX_TTL at
construction (spec §3). -/
def Message.new (counter : Nat) (source : Uid) (destination : Option Uid)
    (payload : Payload) (ttl : Nat) (req_ack : Bool) : Message :=
  { message_id := counter % U32
    source_id := source
    destination_id := destination
    ttl := min ttl MAX_TTL
    req_ack := req_ack
    payload := payload }

/-- Modelled from the spec: `Message::new_ack` — an ordinary construction
carrying an `Ack` payload (used by `ack_success`, discovery responses and
the AckDiscovered rewrite in `device.rs`). -/
def Message.new_ack (counter : Nat) (source : Uid) (destination : Option Uid)
    (ack : AckType) (ttl : Nat) (req_ack : Bool) : Message :=
  Message.new counter source destination (.Ack ack) ttl req_ack

/-- Modelled from the spec: `Message::new_discovery` — a `Discovery`
payload recording the initial TTL as `original_ttl` together with the
device-config byte (spec §4.5 route discovery, scenario 3). -/
def Message.new_discovery (counter : Nat) (source : Uid) (destination : Option Uid)
    (ttl : Nat) (req_ack : Bool) (config : Nat) : Message :=
  Message.new counter source destination (.Discovery ⟨ttl, config⟩) ttl req_ack

/-- Modelled from the spec: `ttl == 0` means expired (spec §3;
`src/message/test.rs` `test_message_is_expired`). -/
def Message.is_expired (m : Message) : Bool :=
  m.ttl == 0

/-- Modelled from the spec: decrement the TTL by one
(`src/message/test.rs` `test_message_decrement_ttl`); `Nat` subtraction
saturates at 0, and every caller in `device.rs` guards with
`!is_expired` first. -/
def Message.decrement_ttl (m : Message) : Message :=
  { m with ttl := m.ttl - 1 }

/-- Modelled from the spec: overwrite the message id (used by
`retry_message` to reuse the original id, spec §4.3). -/
def Message.set_message_id (m : Message) (id : Nat) : Message :=
  { m with message_id := id }

/-- MAX_PENDING_ACKS = 8 (`src/device/pending_ack.rs`). -/
def MAX_PENDING_ACKS : Nat := 8

/-- MAX_ACK_ATTEMPTS = 3 (`src/device/pending_ack.rs`). -/
def MAX_ACK_ATTEMPTS : Nat := 3

/-- Pending-acknowledgement entry (`src/device/pending_ack.rs`). -/
structure PendingAck where
  timestamp : Nat
  attempts : Nat
  is_acknowledged : Bool
  payload : Payload
  destination_uid : Option Uid
  ttl : Nat
deriving DecidableEq, Repr

/-- `PendingAck::new` (`src/device/pending_ack.rs`): fresh entry stamped
with the current instant, zero attempts, unacknowledged. -/
def PendingAck.new (now : Nat) (payload : Payload) (destination_uid : Option Uid)
    (ttl : Nat) : PendingAck :=
  { timestamp := now
    attempts := 0
    is_acknowledged := false
    payload := payload
    destination_uid := destination_uid
    ttl := ttl }

/-- INITIAL_BACKOFF_MS = 500 (`device.rs`). -/
def INITIAL_BACKOFF_MS : Nat := 500

/-- BACKOFF_FACTOR = 2 (`device.rs`). -/
def BACKOFF_FACTOR : Nat := 2

/-- MAX_BACKOFF_MS = 10000 (`device.rs`). -/
def MAX_BACKOFF_MS : Nat := 10000

/-- `calculate_backoff` (`device.rs:717`): exponential backoff with a
special case at attempt 0 and a cap at MAX_BACKOFF_MS. -/
def calculate_backoff (attempt : Nat) : Nat :=
  if attempt = 0 then INITIAL_BACKOFF_MS
  else min (INITIAL_BACKOFF_MS * BACKOFF_FACTOR ^ attempt) MAX_BACKOFF_MS

/-- `calculate_quality` (`device.rs:731`): normalize RSSI and SNR to
0–100, combine 4:6, scale to 0–255. The source computes the
normalizations in `f32` and truncates with `as u16`; modelled with exact
integer arithmetic truncating toward zero. -/
def calculate_quality (rssi snr : Int) : Nat :=
  let rssi_norm : Nat := (min 100 (max 0 (Int.tdiv ((rssi + 120) * 100) 90))).toNat
  let snr_norm : Nat := (min 100 (max 0 (Int.tdiv ((snr + 20) * 100) 30))).toNat
  let quality := (rssi_norm * 4 + snr_norm * 6) / 10
  quality * 255 / 100

/-- A route to a destination (`src/route.rs`). -/
structure Route where
  next_hop : Uid
  hop_count : Nat
  quality : Nat
  last_updated : Nat
  is_active : Bool
deriving DecidableEq, Repr

/-- `Route::new` (`src/route.rs`). -/
def Route.new (now : Nat) (next_hop : Uid) (hop_count : Nat) : Route :=
  { next_hop := next_hop, hop_count := hop_count, quality := 0
    last_updated := now, is_active := true }

/-- `Route::with_quality` (`src/route.rs`). -/
def Route.with_quality (now : Nat) (next_hop : Uid) (hop_count : Nat)
    (quality : Nat) : Route :=
  { next_hop := next_hop, hop_count := hop_count, quality := quality
    last_updated := now, is_active := true }

/-- `Route::is_expired` (`src/route.rs`): age in whole seconds strictly
exceeds the TTL (in seconds). Timestamps are in milliseconds. -/
def Route.is_expired (r : Route) (ttl_seconds now : Nat) : Bool :=
  (now - r.last_updated) / 1000 > ttl_seconds

/-- `Route::touch` (`src/route.rs`). -/
def Route.touch (r : Route) (now : Nat) : Route :=
  { r with last_updated := now }

/-- Per-neighbor link quality (`src/route.rs`). -/
structure LinkQuality where
  rssi : Int
  snr : Int
  success_rate : Nat
  failure_rate : Nat
  last_used : Nat
deriving DecidableEq, Repr

/-- `LinkQuality::new` (`src/route.rs`): 100% success assumed initially. -/
def LinkQuality.new (now : Nat) (rssi snr : Int) : LinkQuality :=
  { rssi := rssi, snr := snr, success_rate := 100, failure_rate := 0
    last_used := now }

/-- `LinkQuality::calculate_quality` (`src/route.rs`): success rate
weighted 4, SNR 3, RSSI 2, inverse failure rate 1; scaled to 0–255.
Integer model of the source's `f32` normalizations, as for
`calculate_quality`. -/
def LinkQuality.calculate_quality (l : LinkQuality) : Nat :=
  let rssi_norm : Nat := (min 100 (max 0 (Int.tdiv ((l.rssi + 120) * 100) 90))).toNat
  let snr_norm : Nat := (min 100 (max 0 (Int.tdiv ((l.snr + 20) * 100) 30))).toNat
  let quality := (l.success_rate * 4 + snr_norm * 3 + rssi_norm * 2
      + (100 - l.failure_rate)) / 10
  quality * 255 / 100

/-- `LinkQuality::record_success` (`src/route.rs`). -/
def LinkQuality.record_success (l : LinkQuality) (now : Nat) : LinkQuality :=
  { l with success_rate := (l.success_rate * 9 + 100) / 10
           failure_rate := l.failure_rate - 5
           last_used := now }

/-- `LinkQuality::record_failure` (`src/route.rs`). -/
def LinkQuality.record_failure (l : LinkQuality) (now : Nat) : LinkQuality :=
  { l with failure_rate := (l.failure_rate * 9 + 100) / 10
           success_rate := l.success_rate - 10
           last_used := now }

/-- `LinkQuality::update_signal_metrics` (`src/route.rs`): exponential
smoothing 70% old / 30% new, truncating like the source's `as i16`. -/
def LinkQuality.update_signal_metrics (l : LinkQuality) (rssi snr : Int)
    (now : Nat) : LinkQuality :=
  { l with rssi := Int.tdiv (l.rssi * 7 + rssi * 3) 10
           snr := Int.tdiv (l.snr * 7 + snr * 3) 10
           last_used := now }

/-- MAX_ROUTES = 128 (`src/route/routing_table.rs`). -/
def MAX_ROUTES : Nat := 128

/-- MAX_ROUTES_PER_DEST = 3 (`src/route/routing_table.rs`). -/
def MAX_ROUTES_PER_DEST : Nat := 3

/-- ROUTE_EXPIRY_SECONDS = 300 (`src/route/routing_table.rs`). -/
def ROUTE_EXPIRY_SECONDS : Nat := 300

/-- ROUTE_REFRESH_SECONDS = 180 (`src/route/routing_table.rs`). -/
def ROUTE_REFRESH_SECONDS : Nat := 180

/-- An entry of the routing table (`RouteEntry` in
`src/route/routing_table.rs`): up to MAX_ROUTES_PER_DEST alternates, a
primary index and a last-used stamp. -/
structure RouteEntry where
  routes : List Route
  primary_idx : Nat
  last_used : Nat
deriving DecidableEq, Repr

/-- `RouteEntry::new` (`routing_table.rs`): singleton vector, primary 0.
The source's push into a fresh capacity-3 vector cannot fail. -/
def RouteEntry.new (now : Nat) (route : Route) : RouteEntry :=
  { routes := [route], primary_idx := 0, last_used := now }

/-- `RouteEntry::primary_route` (`routing_table.rs`). -/
def RouteEntry.primary_route (e : RouteEntry) : Option Route :=
  e.routes.get? e.primary_idx

/-- `is_better_route` (`routing_table.rs:148`): active first, then
quality beyond a margin of 20, then hop count beyond a margin of 1, then
recency. -/
def is_better_route (route1 route2 : Route) : Bool :=
  if route1.is_active && !route2.is_active then true
  else if !route1.is_active && route2.is_active then false
  else if route1.quality > route2.quality + 20 then true
  else if route2.quality > route1.quality + 20 then false
  else if route1.hop_count + 1 < route2.hop_count then true
  else if route2.hop_count + 1 < route1.hop_count then false
  else route1.last_updated > route2.last_updated

/-- `RouteEntry::find_route_idx_by_next_hop` (`routing_table.rs`). -/
def RouteEntry.find_route_idx_by_next_hop (e : RouteEntry) (next_hop : Uid) :
    Option Nat :=
  e.routes.findIdx? (fun r => r.next_hop == next_hop)

/-- Scan for the index of the minimal-quality route, first minimum kept
(helper for `find_worst_route_idx`). -/
def worstIdxGo : List Route → Nat → Nat → Nat → Nat
  | [], _, wi, _ => wi
  | r :: rest, i, wi, wq =>
      if r.quality < wq then worstIdxGo rest (i + 1) i r.quality
      else worstIdxGo rest (i + 1) wi wq

/-- `RouteEntry::find_worst_route_idx` (`routing_table.rs`). -/
def RouteEntry.find_worst_route_idx (e : RouteEntry) : Option Nat :=
  match e.routes with
  | [] => none
  | r0 :: rest => some (worstIdxGo rest 1 0 r0.quality)

/-- Scan for the index of the best route under `is_better_route`, first
best kept (helper for `find_best_route_idx`). -/
def bestIdxGo : List Route → Nat → Nat → Route → Nat
  | [], _, bi, _ => bi
  | r :: rest, i, bi, br =>
      if is_better_route r br then bestIdxGo rest (i + 1) i r
      else bestIdxGo rest (i + 1) bi br

/-- `RouteEntry::find_best_route_idx` (`routing_table.rs`). -/
def RouteEntry.find_best_route_idx (e : RouteEntry) : Option Nat :=
  match e.routes with
  | [] => none
  | r0 :: rest => some (bestIdxGo rest 1 0 r0)

/-- `RouteEntry::get_route` (`routing_table.rs`). -/
def RouteEntry.get_route (e : RouteEntry) (idx : Nat) : Option Route :=
  e.routes.get? idx

/-- `RouteEntry::update_route` (`routing_table.rs`): overwrite in place;
`List.set` is a no-op out of range exactly as `get_mut` yielding `None`. -/
def RouteEntry.update_route (e : RouteEntry) (idx : Nat) (route : Route) :
    RouteEntry :=
  { e with routes := e.routes.set idx route }

/-- `RouteEntry::update_primary_idx` (`routing_table.rs`). -/
def RouteEntry.update_primary_idx (e : RouteEntry) : RouteEntry :=
  match e.find_best_route_idx with
  | some best => { e with primary_idx := best }
  | none => e

/-- `RouteEntry::find_valid_route_idx` (`routing_table.rs`). -/
def RouteEntry.find_valid_route_idx (e : RouteEntry) (ttl now : Nat) :
    Option Nat :=
  e.routes.findIdx? (fun r => r.is_active && !(r.is_expired ttl now))

/-- The routing table (`src/route/routing_table.rs`): destination →
route entry and neighbor → link quality, both insertion-ordered maps
(`FnvIndexMap`), plus the route TTL in seconds. -/
structure RoutingTable where
  routes : List (Nat × RouteEntry)
  link_qualities : List (Nat × LinkQuality)
  route_ttl : Nat
deriving DecidableEq, Repr

/-- `RoutingTable::default` — empty maps, TTL 300 s. -/
def RoutingTable.default : RoutingTable :=
  { routes := [], link_qualities := [], route_ttl := ROUTE_EXPIRY_SECONDS }

/-- Update the value at the first occurrence of a key in an association
list, keeping its position (an `IndexMap` in-place value update). -/
def alUpdate {α : Type} (k : Nat) (f : α → α) : List (Nat × α) → List (Nat × α)
  | [] => []
  | (k', v) :: rest =>
      if k' = k then (k', f v) :: rest else (k', v) :: alUpdate k f rest

/-- `RoutingTable::update_link_quality` (`routing_table.rs:188`). -/
def RoutingTable.update_link_quality (rt : RoutingTable) (node_id : Nat)
    (rssi snr : Int) (now : Nat) : RoutingTable :=
  match rt.link_qualities.lookup node_id with
  | some _ =>
      { rt with link_qualities :=
          (alUpdate node_id (fun l => l.update_signal_metrics rssi snr now)
            rt.link_qualities) }
  | none =>
      if rt.link_qualities.length < MAX_ROUTES then
        { rt with link_qualities :=
            (rt.link_qualities ++ [(node_id, LinkQuality.new now rssi snr)]) }
      else rt

/-- `RoutingTable::record_successful_delivery` (`routing_table.rs:211`):
bump the link stats, then refresh quality on every route whose next hop
is that node. -/
def RoutingTable.record_successful_delivery (rt : RoutingTable) (node_id : Nat)
    (now : Nat) : RoutingTable :=
  match rt.link_qualities.lookup node_id with
  | none => rt
  | some l =>
      let l' := l.record_success now
      let q := l'.calculate_quality
      { rt with
        link_qualities := (alUpdate node_id (fun _ => l') rt.link_qualities)
        routes := (rt.routes.map (fun p =>
          (p.1, { p.2 with routes := (p.2.routes.map (fun r =>
            if r.next_hop == node_id then
              { r with quality := q, last_updated := now }
            else r)) }))) }

/-- `RoutingTable::record_failed_delivery` (`routing_table.rs:229`): like
the success case, additionally deactivating routes whose refreshed
quality falls below 50. -/
def RoutingTable.record_failed_delivery (rt : RoutingTable) (node_id : Nat)
    (now : Nat) : RoutingTable :=
  match rt.link_qualities.lookup node_id with
  | none => rt
  | some l =>
      let l' := l.record_failure now
      let q := l'.calculate_quality
      { rt with
        link_qualities := (alUpdate node_id (fun _ => l') rt.link_qualities)
        routes := (rt.routes.map (fun p =>
          (p.1, { p.2 with routes := (p.2.routes.map (fun r =>
            if r.next_hop == node_id then
              let r := { r with quality := q, last_updated := now }
              if q < 50 then { r with is_active := false } else r
            else r)) }))) }

/-- Scan for the least-recently-used destination, first minimum kept
(`RoutingTable::find_least_recently_used`, `routing_table.rs:543`). -/
def lruGo : List (Nat × RouteEntry) → Option (Nat × Nat) → Option Nat
  | [], acc => acc.map (·.1)
  | (d, e) :: rest, acc =>
      match acc with
      | none => lruGo rest (some (d, e.last_used))
      | some (od, ot) =>
          if e.last_used < ot then lruGo rest (some (d, e.last_used))
          else lruGo rest (some (od, ot))

/-- `RoutingTable::find_least_recently_used` (`routing_table.rs`). -/
def RoutingTable.find_least_recently_used (rt : RoutingTable) : Option Nat :=
  lruGo rt.routes none

/-- `RoutingTable::update` (`routing_table.rs:252`): insert or improve a
route, following the source's branches — same-next-hop overwrite,
alternate append when below capacity, worst-alternate replacement when
strictly better, or a fresh entry with LRU eviction when the table is
full. -/
def RoutingTable.update (rt : RoutingTable) (destination : Nat)
    (new_route : Route) (now : Nat) : RoutingTable :=
  let route_to_add :=
    match rt.link_qualities.lookup new_route.next_hop with
    | some link => { new_route with quality := link.calculate_quality }
    | none => new_route
  match rt.routes.lookup destination with
  | some entry =>
      match entry.find_route_idx_by_next_hop new_route.next_hop with
      | some existing_idx =>
          let had_primary := entry.primary_route.isSome
          let was_primary := existing_idx = entry.primary_idx
          let primary_route := entry.primary_route
          let e := entry.update_route existing_idx route_to_add
          let e :=
            if !was_primary && had_primary then
              match primary_route with
              | some primary =>
                  if is_better_route route_to_add primary then
                    { e with primary_idx := existing_idx }
                  else e
              | none => e
            else e
          { rt with routes := (alUpdate destination
              (fun _ => { e with last_used := now }) rt.routes) }
      | none =>
          if entry.routes.length < MAX_ROUTES_PER_DEST then
            let idx := entry.routes.length
            let primary_route := entry.primary_route
            let e := { entry with routes := entry.routes ++ [route_to_add] }
            let e :=
              match primary_route with
              | some primary =>
                  if is_better_route route_to_add primary then
                    { e with primary_idx := idx }
                  else e
              | none => { e with primary_idx := idx }
            { rt with routes := (alUpdate destination
                (fun _ => { e with last_used := now }) rt.routes) }
          else
            match entry.find_worst_route_idx with
            | none => rt
            | some worst_idx =>
                match entry.get_route worst_idx with
                | none => rt
                | some worst_route =>
                    if route_to_add.quality > worst_route.quality then
                      let was_primary := worst_idx = entry.primary_idx
                      let primary_route := entry.primary_route
                      let e := entry.update_route worst_idx route_to_add
                      let e :=
                        if was_primary then e.update_primary_idx
                        else
                          match primary_route with
                          | some primary =>
                              if is_better_route route_to_add primary then
                                { e with primary_idx := worst_idx }
                              else e
                          | none => { e with primary_idx := worst_idx }
                      { rt with routes := (alUpdate destination
                          (fun _ => { e with last_used := now }) rt.routes) }
                    else rt
  | none =>
      let entry := RouteEntry.new now route_to_add
      let routes :=
        if rt.routes.length ≥ MAX_ROUTES then
          match lruGo rt.routes none with
          | some lru => rt.routes.eraseP (fun p => p.1 == lru)
          | none => rt.routes
        else rt.routes
      let routes :=
        if routes.length < MAX_ROUTES then routes ++ [(destination, entry)]
        else routes
      { rt with routes := routes }

/-- `RoutingTable::lookup_route` (`routing_table.rs:399`): primary if
usable, else any valid alternate (promoted), else the stale primary as a
best-effort hint; touches `last_used` whenever a route is returned. -/
def RoutingTable.lookup_route (rt : RoutingTable) (destination : Nat)
    (now : Nat) : RoutingTable × Option Route :=
  match rt.routes.lookup destination with
  | none => (rt, none)
  | some entry =>
      match entry.primary_route with
      | some route =>
          if route.is_active && !(route.is_expired rt.route_ttl now) then
            ({ rt with routes := (alUpdate destination
                (fun e => { e with last_used := now }) rt.routes) },
             some route)
          else
            match entry.find_valid_route_idx rt.route_ttl now with
            | some valid_idx =>
                match entry.get_route valid_idx with
                | some r =>
                    ({ rt with routes := (alUpdate destination
                        (fun e => { e with primary_idx := valid_idx,
                                           last_used := now }) rt.routes) },
                     some r)
                | none =>
                    ({ rt with routes := (alUpdate destination
                        (fun e => { e with last_used := now }) rt.routes) },
                     some route)
            | none =>
                ({ rt with routes := (alUpdate destination
                    (fun e => { e with last_used := now }) rt.routes) },
                 some route)
      | none =>
          match entry.find_valid_route_idx rt.route_ttl now with
          | some valid_idx =>
              match entry.get_route valid_idx with
              | some r =>
                  ({ rt with routes := (alUpdate destination
                      (fun e => { e with primary_idx := valid_idx,
                                         last_used := now }) rt.routes) },
                   some r)
              | none => (rt, none)
          | none => (rt, none)

/-- Per-entry phase of `RoutingTable::cleanup` (`routing_table.rs:462`):
drop inactive or expired routes; if valid routes remain and the primary
index fell out of bounds, recompute it. -/
def cleanupEntry (ttl now : Nat) (e : RouteEntry) : RouteEntry :=
  let rs := e.routes.filter (fun r => r.is_active && !(r.is_expired ttl now))
  let e := { e with routes := rs }
  if rs.isEmpty then e
  else if e.primary_idx ≥ rs.length then e.update_primary_idx
  else e

/-- `RoutingTable::cleanup` (`routing_table.rs:453`): age out link
quality, drop invalid routes per entry, then remove entries left with no
valid route — but the removal list is a `Vec<u8, 16>`, so only the first
16 such destinations (in iteration order) are actually removed. -/
def RoutingTable.cleanup (rt : RoutingTable) (now : Nat) : RoutingTable :=
  let link' := rt.link_qualities.filter
    (fun p => now - p.2.last_used < rt.route_ttl * 3 * 1000)
  let cleaned := rt.routes.map (fun p => (p.1, cleanupEntry rt.route_ttl now p.2))
  let to_remove :=
    ((cleaned.filter (fun p => p.2.routes.isEmpty)).map (·.1)).take 16
  { rt with
    link_qualities := link'
    routes := (cleaned.filter (fun p => !(to_remove.contains p.1))) }

/-- `RoutingTable::needs_refresh` (`routing_table.rs:530`). -/
def RoutingTable.needs_refresh (rt : RoutingTable) (destination : Nat)
    (now : Nat) : Bool :=
  match rt.routes.lookup destination with
  | some entry =>
      match entry.primary_route with
      | some primary =>
          primary.is_expired rt.route_ttl now ||
            (!(primary.is_expired ROUTE_REFRESH_SECONDS now) &&
              primary.quality < 100)
      | none => true
  | none => true

/-- The error variants of `DeviceError` (`src/device/device_error.rs`)
reachable in the modelled engine. -/
inductive DeviceError
  | routeNotFound
  | invalidDestination
deriving DecidableEq, Repr

/-- INQUEUE_SIZE = 32 (`device.rs`). -/
def INQUEUE_SIZE : Nat := 32

/-- OUTQUEUE_SIZE = 32 (`device.rs`). -/
def OUTQUEUE_SIZE : Nat := 32

/-- MAX_INQUEUE_PROCESS = 5 (`device.rs`). -/
def MAX_INQUEUE_PROCESS : Nat := 5

/-- MAX_OUTQUEUE_TRANSMIT = 5 (`device.rs`). -/
def MAX_OUTQUEUE_TRANSMIT : Nat := 5

/-- Modelled from the spec: the bounded FIFO `MessageQueue` contract
(spec §4.2) — `enqueue` fails (and the engine merely logs) when the queue
is at capacity; only the trait is present in
`src/device/collections.rs`. -/
def tryEnqueue (q : List Message) (cap : Nat) (m : Message) : List Message :=
  if q.length < cap then q ++ [m] else q

/-- Checked `u8` subtraction: the Rust expression `a - b` on `u8` panics
(debug) or wraps (release) when `b > a`; modelled as `none` there. -/
def u8sub? (a b : Nat) : Option Nat :=
  if b ≤ a then some (a - b) else none

/-- The mesh-engine state (`LoraDevice` in `device.rs`), minus the radio
and LoRa configuration, which only matter below the modelled layer. The
`counter` field is the process-wide message-id counter (spec §5), and
`device_config` the capabilities byte carried in discovery payloads. -/
structure Device where
  uid : Uid
  inqueue : List Message
  outqueue : List Message
  pending_acks : List (Nat × PendingAck)
  routing_table : RoutingTable
  device_config : Nat
  counter : Nat
deriving DecidableEq, Repr

/-- `LoraDevice::new` (`device.rs:104`): empty queues, empty pending-ack
table, default routing table. -/
def Device.init (uid : Uid) (config : Nat) : Device :=
  { uid := uid, inqueue := [], outqueue := [], pending_acks := []
    routing_table := RoutingTable.default, device_config := config
    counter := 0 }

/-- `LoraDevice::ack_success` (`device.rs:406`): enqueue an
`Ack::Success` back to the message's source, with the received
message's TTL and `req_ack = false`. -/
def Device.ack_success (d : Device) (m : Message) : Device :=
  let ack := Message.new_ack d.counter d.uid (some m.source_id)
    (.Success m.message_id) m.ttl false
  { d with counter := d.counter + 1
           outqueue := tryEnqueue d.outqueue OUTQUEUE_SIZE ack }

/-- `LoraDevice::handle_ack_message` (`device.rs:356`). -/
def Device.handle_ack_message (d : Device) (m : Message) (ack : AckType)
    (rx : Option RxInfo) (now : Nat) : Device :=
  match ack with
  | .Success message_id =>
      match d.pending_acks.lookup message_id with
      | none => d
      | some _ =>
          { d with
            pending_acks := (alUpdate message_id
              (fun a => { a with is_acknowledged := true }) d.pending_acks)
            routing_table :=
              (d.routing_table.record_successful_delivery m.source_id now) }
  | .AckDiscovered hops last_hop =>
      let route := Route.new now last_hop hops
      let route :=
        match rx with
        | some info =>
            { route with quality := calculate_quality info.rssi info.snr }
        | none => route
      let d := { d with routing_table :=
        (d.routing_table.update m.source_id route now) }
      if m.destination_id == some d.uid then
        match d.pending_acks.lookup m.message_id with
        | some _ =>
            { d with pending_acks := (alUpdate m.message_id
                (fun a => { a with is_acknowledged := true }) d.pending_acks) }
        | none => d
      else d
  | .Failure message_id =>
      match d.pending_acks.lookup message_id with
      | none => d
      | some entry =>
          let d := { d with pending_acks := (alUpdate message_id
            (fun a => { a with is_acknowledged := true }) d.pending_acks) }
          match entry.destination_uid with
          | none => d
          | some dest =>
              let lr := d.routing_table.lookup_route dest now
              let d := { d with routing_table := lr.1 }
              match lr.2 with
              | some route =>
                  { d with routing_table :=
                      (d.routing_table.record_failed_delivery route.next_hop now) }
              | none => d

/-- `LoraDevice::process_message_internal` (`device.rs:279`): local
dispatch on the payload. The Discovery branch computes
`hops = original_ttl - ttl` with an unchecked `u8` subtraction; the model
returns `none` exactly where that subtraction underflows. -/
def Device.process_message_internal (d : Device) (m : Message)
    (rx : Option RxInfo) (now : Nat) : Option Device :=
  match m.payload with
  | .Data _ => some (if m.req_ack then d.ack_success m else d)
  | .Command _ => some (if m.req_ack then d.ack_success m else d)
  | .Ack a => some (d.handle_ack_message m a rx now)
  | .Route _ => some d
  | .Discovery disc =>
      match u8sub? disc.original_ttl m.ttl with
      | none => none
      | some hops =>
          let d :=
            match rx with
            | some info =>
                let q := calculate_quality info.rssi info.snr
                { d with routing_table := (d.routing_table.update m.source_id
                    (Route.with_quality now m.source_id 1 q) now) }
            | none => d
          let ackMsg := Message.new_ack d.counter d.uid (some m.source_id)
            (.AckDiscovered hops d.uid) m.ttl false
          some { d with counter := d.counter + 1
                        outqueue := tryEnqueue d.outqueue OUTQUEUE_SIZE ackMsg }

/-- `LoraDevice::is_route_discovery_in_progress` (`device.rs:230`). -/
def Device.is_route_discovery_in_progress (d : Device) (destination : Nat) :
    Bool :=
  d.pending_acks.any (fun p =>
    (match p.2.payload with
     | .Discovery _ => true
     | _ => false) && p.2.destination_uid == some destination)

/-- `LoraDevice::initiate_route_discovery` (`device.rs:244`): enqueue a
targeted discovery with TTL 3 and `req_ack = true`; destination 0 is
rejected (`NonZeroU8::new`). -/
def Device.initiate_route_discovery (d : Device) (destination : Nat) : Device :=
  if destination = 0 then d
  else
    let msg := Message.new_discovery d.counter d.uid (some destination) 3 true
      d.device_config
    { d with counter := d.counter + 1
             outqueue := tryEnqueue d.outqueue OUTQUEUE_SIZE msg }

/-- `LoraDevice::discover_nodes` (`device.rs:450`): broadcast discovery,
TTL 3, `req_ack = true`. -/
def Device.discover_nodes (d : Device) : Device :=
  let msg := Message.new_discovery d.counter d.uid none 3 true d.device_config
  { d with counter := d.counter + 1
           outqueue := tryEnqueue d.outqueue OUTQUEUE_SIZE msg }

/-- The AckDiscovered rewrite at the top of `route_message`
(`device.rs:166`): reset `hops` to 0, stamp this node as `last_hop`,
and redirect the message to the payload's previous `last_hop`. -/
def Device.ackDiscRewrite (d : Device) (m : Message) : Device × Message :=
  match m.payload with
  | .Ack (.AckDiscovered _ last_hop) =>
      ({ d with counter := d.counter + 1 },
       Message.new_ack d.counter d.uid (some last_hop)
         (.AckDiscovered 0 d.uid) m.ttl m.req_ack)
  | _ => (d, m)

/-- The link-quality / direct-route update inside `route_message`
(`device.rs:186`), performed when signal information is present; note it
uses the possibly rewritten message's source. -/
def Device.rxUpdate (d : Device) (m : Message) (rx : Option RxInfo)
    (now : Nat) : Device :=
  match rx with
  | none => d
  | some info =>
      let rt := d.routing_table.update_link_quality m.source_id info.rssi
        info.snr now
      let rt := rt.update m.source_id
        (Route.with_quality now m.source_id 1
          (calculate_quality info.rssi info.snr)) now
      { d with routing_table := rt }

/-- The body of `route_message` after the AckDiscovered rewrite
(`device.rs:180`): extract the destination, update link quality, look up
a route; on a hit rebuild the message (`source = self`, destination =
`route.next_hop`, fresh id), decrement its TTL and transmit it directly
(`tx_message`), then record the successful delivery; on a miss initiate
a discovery unless one is pending. The middle component of the result is
the list of messages handed to the radio. -/
def Device.route_message_core (d : Device) (m : Message) (rx : Option RxInfo)
    (now : Nat) : Device × List Message × Except DeviceError Unit :=
  match m.destination_id with
  | none => (d, [], .error .invalidDestination)
  | some dest =>
      let d := d.rxUpdate m rx now
      let lr := d.routing_table.lookup_route dest now
      let d := { d with routing_table := lr.1 }
      match lr.2 with
      | some route =>
          let fwd := Message.new d.counter d.uid (some route.next_hop)
            m.payload m.ttl m.req_ack
          let d := { d with counter := d.counter + 1 }
          let fwd := fwd.decrement_ttl
          let d := { d with routing_table :=
            (d.routing_table.record_successful_delivery route.next_hop now) }
          (d, [fwd], .ok ())
      | none =>
          let d :=
            if d.is_route_discovery_in_progress dest then d
            else d.initiate_route_discovery dest
          (d, [], .error .routeNotFound)

/-- `LoraDevice::route_message` (`device.rs:164`). -/
def Device.route_message (d : Device) (m : Message) (rx : Option RxInfo)
    (now : Nat) : Device × List Message × Except DeviceError Unit :=
  let p := d.ackDiscRewrite m
  Device.route_message_core p.1 p.2 rx now

/-- `LoraDevice::enqueue_message_with_rx_info` (`device.rs:140`):
messages for this node go to InQueue; unexpired messages for another
node are routed; unexpired broadcasts are copied to OutQueue and then to
InQueue. All enqueue and routing errors are logged and swallowed. -/
def Device.enqueue_message_with_rx_info (d : Device) (m : Message)
    (rx : Option RxInfo) (now : Nat) : Device × List Message :=
  match m.destination_id with
  | some receiver =>
      if receiver == d.uid then
        ({ d with inqueue := tryEnqueue d.inqueue INQUEUE_SIZE m }, [])
      else if !m.is_expired then
        let r := d.route_message m rx now
        (r.1, r.2.1)
      else (d, [])
  | none =>
      if !m.is_expired then
        let d := { d with outqueue := tryEnqueue d.outqueue OUTQUEUE_SIZE m }
        ({ d with inqueue := tryEnqueue d.inqueue INQUEUE_SIZE m }, [])
      else (d, [])

/-- `LoraDevice::process_message_with_rx_info` (`device.rs:266`): update
link quality from the sender, dispatch locally, then enqueue/forward. -/
def Device.process_message_with_rx_info (d : Device) (m : Message)
    (info : RxInfo) (now : Nat) : Option (Device × List Message) :=
  let d := { d with routing_table :=
    (d.routing_table.update_link_quality m.source_id info.rssi info.snr now) }
  match d.process_message_internal m (some info) now with
  | none => none
  | some d => some (d.enqueue_message_with_rx_info m (some info) now)

/-- `LoraDevice::add_pending_ack` (`device.rs:433`): insert-if-absent;
the `FnvIndexMap` insert fails (and is only logged) when the table is
full and the key fresh. -/
def Device.add_pending_ack (d : Device) (m : Message) (now : Nat) : Device :=
  let pa := PendingAck.new now m.payload m.destination_id m.ttl
  match d.pending_acks.lookup m.message_id with
  | some _ => d
  | none =>
      if d.pending_acks.length < MAX_PENDING_ACKS then
        { d with pending_acks := d.pending_acks ++ [(m.message_id, pa)] }
      else d

/-- `LoraDevice::send_message` (`device.rs:422`): create the pending-ack
entry for `req_ack` messages, then transmit. -/
def Device.send_message (d : Device) (m : Message) (now : Nat) :
    Device × List Message :=
  ((if m.req_ack then d.add_pending_ack m now else d), [m])

/-- Drain loop of `process_outqueue` (`device.rs:345`). -/
def Device.process_outqueue_go : Nat → Device → Nat → Device × List Message
  | 0, d, _ => (d, [])
  | k + 1, d, now =>
      match d.outqueue with
      | [] => (d, [])
      | m :: rest =>
          let d := { d with outqueue := rest }
          let r1 := d.send_message m now
          let r2 := Device.process_outqueue_go k r1.1 now
          (r2.1, r1.2 ++ r2.2)

/-- `LoraDevice::process_outqueue` (`device.rs:345`): transmit up to
MAX_OUTQUEUE_TRANSMIT queued messages. -/
def Device.process_outqueue (d : Device) (now : Nat) : Device × List Message :=
  Device.process_outqueue_go (min d.outqueue.length MAX_OUTQUEUE_TRANSMIT) d now

/-- Drain loop of `process_inqueue` (`device.rs:334`): dequeue and
dispatch locally (no signal info). -/
def Device.process_inqueue_go : Nat → Device → Nat → Option Device
  | 0, d, _ => some d
  | k + 1, d, now =>
      match d.inqueue with
      | [] => some d
      | m :: rest =>
          match Device.process_message_internal { d with inqueue := rest } m
              none now with
          | none => none
          | some d => Device.process_inqueue_go k d now

/-- `LoraDevice::process_inqueue` (`device.rs:334`). -/
def Device.process_inqueue (d : Device) (now : Nat) : Option Device :=
  Device.process_inqueue_go (min d.inqueue.length MAX_INQUEUE_PROCESS) d now

/-- `LoraDevice::retry_message` (`device.rs:637`): rebuild the message
from the stored pending-ack data with `source = self` and `req_ack =
true`, restore the original message id, and enqueue it on OutQueue. -/
def Device.retry_message (d : Device) (message_id : Nat) : Device :=
  match d.pending_acks.lookup message_id with
  | none => d
  | some a =>
      let msg := (Message.new d.counter d.uid a.destination_uid a.payload
        a.ttl true).set_message_id message_id
      { d with counter := d.counter + 1
               outqueue := tryEnqueue d.outqueue OUTQUEUE_SIZE msg }

/-- First pass of `check_pending_acks_and_routes` (`device.rs:541`):
walk the pending-ack table in order; entries past their backoff are
either marked for retry (timestamp reset, attempts bumped) or, at
MAX_ACK_ATTEMPTS, marked for removal with a failed-delivery record
against the destination's current route. The retry and removal lists are
`Vec<_, 16>`; a push onto a full list is dropped with a warning. The
`nr`/`na` arguments carry the current lengths of those two lists. -/
def pass1 (now : Nat) : List (Nat × PendingAck) → RoutingTable → Nat → Nat →
    List (Nat × PendingAck) × List (Nat × Nat) × List Nat × RoutingTable
  | [], rt, _, _ => ([], [], [], rt)
  | (id, a) :: rest, rt, nr, na =>
      if now - a.timestamp > calculate_backoff a.attempts then
        if a.attempts < MAX_ACK_ATTEMPTS then
          let r := pass1 now rest rt (if nr < 16 then nr + 1 else nr) na
          ((id, { a with timestamp := now, attempts := a.attempts + 1 }) :: r.1,
           (if nr < 16 then [(id, a.attempts)] else []) ++ r.2.1,
           r.2.2.1, r.2.2.2)
        else
          let rt1 :=
            match a.destination_uid with
            | some dest =>
                let lr := rt.lookup_route dest now
                match lr.2 with
                | some route => lr.1.record_failed_delivery route.next_hop now
                | none => lr.1
            | none => rt
          let r := pass1 now rest rt1 nr (if na < 16 then na + 1 else na)
          ((id, a) :: r.1, r.2.1,
           (if na < 16 then [id] else []) ++ r.2.2.1, r.2.2.2)
      else
        let r := pass1 now rest rt nr na
        ((id, a) :: r.1, r.2.1, r.2.2.1, r.2.2.2)

/-- The effect of the first pass of `check_pending_acks_and_routes` on a
single pending-ack entry (a restatement of the two in-place mutations of
`device.rs:549`, used to characterize `pass1`): an entry past its backoff
and below MAX_ACK_ATTEMPTS gets its timestamp reset and attempts bumped;
every other entry is unchanged. -/
def pass1Entry (now : Nat) (p : Nat × PendingAck) : Nat × PendingAck :=
  if now - p.2.timestamp > calculate_backoff p.2.attempts then
    if p.2.attempts < MAX_ACK_ATTEMPTS then
      (p.1, { p.2 with timestamp := now, attempts := p.2.attempts + 1 })
    else p
  else p

/-- `LoraDevice::check_pending_acks_and_routes` (`device.rs:535`):
retry/give-up pass over the pending acks, retry enqueueing, marking and
removal of acknowledged entries, then routing-table cleanup. The
stats-logging tail of the source mutates only a logging counter and is
not modelled. -/
def Device.check_pending_acks_and_routes (d : Device) (now : Nat) : Device :=
  let r := pass1 now d.pending_acks d.routing_table 0 0
  let to_retry := r.2.1
  let to_acknowledge := r.2.2.1
  let d := { d with pending_acks := r.1, routing_table := r.2.2.2 }
  let d := to_retry.foldl (fun d pr => d.retry_message pr.1) d
  let pend := d.pending_acks.map (fun p =>
    if to_acknowledge.contains p.1 then
      (p.1, { p.2 with is_acknowledged := true })
    else p)
  let pend := pend.filter (fun p => !p.2.is_acknowledged)
  { d with pending_acks := pend
           routing_table := d.routing_table.cleanup now }

/-- `LoraDevice::refresh_routes` (`device.rs:609`): collect up to 16
destinations needing refresh (ids 1–255, excluding self) and initiate a
discovery for each. -/
def Device.refresh_routes (d : Device) (now : Nat) : Device :=
  let to_refresh := (((List.range 256).drop 1).filter (fun id =>
    id ≠ d.uid && d.routing_table.needs_refresh id now)).take 16
  to_refresh.foldl (fun d dest => d.initiate_route_discovery dest) d

/-- One observable phase of the engine loop `run_quadranet`
(`device.rs:665`): a successful reception, a reception timeout, the
InQueue pass (guarded by the loop's near-full check), the OutQueue
drain, the pending-ack/maintenance pass, or the periodic route refresh;
`discover` is the startup broadcast. Each carries the instant at which
the phase runs. -/
inductive Event
  | rx (m : Message) (info : RxInfo) (now : Nat)
  | rxTimeout
  | procIn (now : Nat)
  | procOut (now : Nat)
  | maintain (now : Nat)
  | refresh (now : Nat)
  | discover

/-- Step function of the engine loop: the next state and the messages
transmitted during the phase; `none` where the source can panic (the
Discovery `u8` underflow). -/
def Device.step (d : Device) : Event → Option (Device × List Message)
  | .rx m info now => d.process_message_with_rx_info m info now
  | .rxTimeout => some (d, [])
  | .procIn now =>
      if d.inqueue.length < INQUEUE_SIZE - 1 then
        (d.process_inqueue now).map (fun d' => (d', []))
      else some (d, [])
  | .procOut now =>
      if d.outqueue.isEmpty then some (d, []) else some (d.process_outqueue now)
  | .maintain now => some (d.check_pending_acks_and_routes now, [])
  | .refresh now => some (d.refresh_routes now, [])
  | .discover => some (d.discover_nodes, [])

/-- States reachable by the engine loop from a freshly constructed
device. -/
inductive Reachable : Device → Prop
  | init (uid config : Nat) : uid ≠ 0 → Reachable (Device.init uid config)
  | step (d : Device) (e : Event) (d' : Device) (txs : List Message) :
      Reachable d → d.step e = some (d', txs) → Reachable d'

/-! ## Concrete states used to instantiate and refute claims

`exDevB` mirrors scenario 2 of spec §8: node B (uid 2) with an active,
fresh route to destination 5 via next hop 7. -/

/-- An active, fresh route to use as table content in examples. -/
def exRouteB : Route :=
  { next_hop := 7, hop_count := 1, quality := 200, last_updated := 0
    is_active := true }

/-- Routing table of node B: one entry, destination 5 via 7. -/
def exRtB : RoutingTable :=
  { routes := [(5, RouteEntry.new 0 exRouteB)], link_qualities := []
    route_ttl := 300 }

/-- Node B: uid 2, fresh device except for the routing table. -/
def exDevB : Device :=
  { Device.init 2 0 with routing_table := exRtB }

/-- Received data frame addressed to node 5 (spec §8 scenario 2). -/
def exMsgB : Message :=
  { message_id := 99, source_id := 3, destination_id := some 5, ttl := 3
    req_ack := false, payload := .Data (.Binary [1]) }

/-- The same frame with `ttl = 1` (spec §8 boundary behavior). -/
def exMsgB1 : Message :=
  { exMsgB with ttl := 1 }

/-- The same frame with `req_ack = true`. -/
def exMsgBr : Message :=
  { exMsgB with req_ack := true }

/-- The same frame as a broadcast. -/
def exMsgBc : Message :=
  { exMsgB with destination_id := none }

/-- An inactive route, invalid for `cleanup`. -/
def exDeadRoute : Route :=
  { next_hop := 9, hop_count := 1, quality := 10, last_updated := 0
    is_active := false }

/-- A destination entry holding only the inactive route. -/
def exDeadEntry : RouteEntry :=
  { routes := [exDeadRoute], primary_idx := 0, last_used := 0 }

/-- A routing table with 17 destinations, each holding only an inactive
route — one more than the cleanup removal list can carry. -/
def exRt17 : RoutingTable :=
  { routes := (List.range 17).map (fun i => (i + 1, exDeadEntry))
    link_qualities := [], route_ttl := 300 }

/-- A received `req_ack` data frame for this node whose TTL is already 0. -/
def exMsgT0 : Message :=
  { message_id := 7, source_id := 2, destination_id := some 1, ttl := 0
    req_ack := true, payload := .Data (.Binary [1]) }

/-- Concrete reception metadata. -/
def exInfo : RxInfo :=
  { rssi := -80, snr := 5, timestamp := 0 }

/-- The state of node 1 after receiving `exMsgT0` in the engine loop. -/
def exDevT0 : Device :=
  (((Device.init 1 0).step (Event.rx exMsgT0 exInfo 0)).getD
    (Device.init 1 0, [])).1

/-- A pending-ack entry wrung out of retries: attempts at
MAX_ACK_ATTEMPTS, unacknowledged, destination 4. -/
def exPaGive : PendingAck :=
  { timestamp := 0, attempts := 3, is_acknowledged := false
    payload := .Data (.Binary [1]), destination_uid := some 4, ttl := 3 }

/-- Node 1 holding only the exhausted entry, with an empty routing
table. -/
def exDevGive : Device :=
  { Device.init 1 0 with pending_acks := [(77, exPaGive)] }

/-- A pending-ack entry with one attempt left, unacknowledged. -/
def exPaRetry : PendingAck :=
  { exPaGive with attempts := 1 }

/-- Node 1 holding only the retryable entry. -/
def exDevRetry : Device :=
  { Device.init 1 0 with pending_acks := [(77, exPaRetry)] }

/-! ## Supporting lemmas -/

theorem mem_tryEnqueue {q : List Message} {cap : Nat} {m x : Message}
    (h : x ∈ tryEnqueue q cap m) : x ∈ q ∨ x = m := by
  unfold tryEnqueue at h
  by_cases hc : q.length < cap
  · rw [if_pos hc] at h
    rcases List.mem_append.mp h with h | h
    · exact Or.inl h
    · exact Or.inr (List.mem_singleton.mp h)
  · rw [if_neg hc] at h
    exact Or.inl h

theorem tryEnqueue_mono {q : List Message} {cap : Nat} {m x : Message}
    (h : x ∈ q) : x ∈ tryEnqueue q cap m := by
  unfold tryEnqueue
  by_cases hc : q.length < cap
  · rw [if_pos hc]; exact List.mem_append.mpr (Or.inl h)
  · rw [if_neg hc]; exact h

theorem tryEnqueue_full_mem {q : List Message} {cap : Nat} {m : Message}
    (h : q.length < cap) : m ∈ tryEnqueue q cap m := by
  unfold tryEnqueue
  rw [if_pos h]
  exact List.mem_append.mpr (Or.inr (List.mem_singleton.mpr rfl))

theorem lookup_append_of_none {α : Type} {l l' : List (Nat × α)} {k : Nat}
    (h : l.lookup k = none) : (l ++ l').lookup k = l'.lookup k := by
  induction l with
  | nil => simp
  | cons p rest ih =>
      rw [List.cons_append, List.lookup]
      rw [List.lookup] at h
      by_cases hk : k == p.1
      · simp [hk] at h
      · simp only [hk, cond_false] at h ⊢
        exact ih h

theorem lookup_of_mem_of_nodup {α : Type} {l : List (Nat × α)} {k : Nat} {v : α}
    (hnd : (l.map Prod.fst).Nodup) (hm : (k, v) ∈ l) : l.lookup k = some v := by
  induction l with
  | nil => cases hm
  | cons p rest ih =>
      rw [List.map_cons, List.nodup_cons] at hnd
      rcases List.mem_cons.mp hm with h | h
      · subst h
        simp [List.lookup]
      · have hne : ¬(k == p.1) := by
          intro hkp
          have hk : k = p.1 := eq_of_beq hkp
          exact hnd.1 (List.mem_map.mpr ⟨(k, v), h, hk⟩)
        rw [List.lookup]
        simp only [hne, cond_false]
        exact ih hnd.2 h

theorem mem_unique_of_nodup {α : Type} {l : List (Nat × α)} {k : Nat} {v w : α}
    (hnd : (l.map Prod.fst).Nodup) (hv : (k, v) ∈ l) (hw : (k, w) ∈ l) :
    v = w := by
  have h1 := lookup_of_mem_of_nodup hnd hv
  have h2 := lookup_of_mem_of_nodup hnd hw
  rw [h1] at h2
  exact (Option.some.injEq _ _ ▸ h2)

theorem ackDiscRewrite_fst (d : Device) (m : Message) :
    (d.ackDiscRewrite m).1.uid = d.uid ∧
    (d.ackDiscRewrite m).1.outqueue = d.outqueue ∧
    (d.ackDiscRewrite m).1.inqueue = d.inqueue ∧
    (d.ackDiscRewrite m).1.pending_acks = d.pending_acks ∧
    (d.ackDiscRewrite m).1.routing_table = d.routing_table := by
  unfold Device.ackDiscRewrite
  cases hp : m.payload with
  | Ack a => cases a <;> simp
  | _ => simp

theorem ackDiscRewrite_snd_ttl (d : Device) (m : Message) (h : m.ttl ≤ MAX_TTL) :
    (d.ackDiscRewrite m).2.ttl = m.ttl := by
  unfold Device.ackDiscRewrite
  cases hp : m.payload with
  | Ack a =>
      cases a with
      | AckDiscovered hops lh =>
          simp [Message.new_ack, Message.new, Nat.min_eq_left h]
      | _ => simp
  | _ => simp

theorem ackDiscRewrite_snd_dest (d : Device) (m : Message) {dest : Nat}
    (h : m.destination_id = some dest) :
    ∃ dd, (d.ackDiscRewrite m).2.destination_id = some dd := by
  unfold Device.ackDiscRewrite
  cases hp : m.payload with
  | Ack a =>
      cases a with
      | AckDiscovered hops lh => exact ⟨lh, by simp [Message.new_ack, Message.new]⟩
      | _ => exact ⟨dest, by simpa using h⟩
  | _ => exact ⟨dest, by simpa using h⟩

theorem rxUpdate_fields (d : Device) (m : Message) (rx : Option RxInfo)
    (now : Nat) :
    (d.rxUpdate m rx now).uid = d.uid ∧
    (d.rxUpdate m rx now).counter = d.counter ∧
    (d.rxUpdate m rx now).outqueue = d.outqueue ∧
    (d.rxUpdate m rx now).inqueue = d.inqueue ∧
    (d.rxUpdate m rx now).pending_acks = d.pending_acks := by
  cases rx <;> simp [Device.rxUpdate]

/-- Reduction of `route_message_core` when the routing-table lookup on the
destination finds a route: the forwarded message is rebuilt with a fresh
id, `source = self`, destination = the route's next hop, TTL decremented,
and is transmitted directly; OutQueue is untouched. -/
theorem route_message_core_found (d : Device) (m : Message) (rx : Option RxInfo)
    (now dest : Nat) (rt' : RoutingTable) (route : Route)
    (hdest : m.destination_id = some dest)
    (hfound : ((d.rxUpdate m rx now).routing_table).lookup_route dest now =
      (rt', some route)) :
    Device.route_message_core d m rx now =
      ({ d.rxUpdate m rx now with
           counter := (d.rxUpdate m rx now).counter + 1
           routing_table := (rt'.record_successful_delivery route.next_hop now) },
       [(Message.new (d.rxUpdate m rx now).counter (d.rxUpdate m rx now).uid
          (some route.next_hop) m.payload m.ttl m.req_ack).decrement_ttl],
       Except.ok ()) := by
  unfold Device.route_message_core
  rw [hdest]
  simp only [hfound]

/-- Reduction of `route_message_core` on a lookup miss: nothing is
transmitted; the only possible OutQueue addition is the targeted
discovery message, whose payload is `Discovery` and whose TTL is 3. -/
theorem route_message_core_miss (d : Device) (m : Message) (rx : Option RxInfo)
    (now dest : Nat) (rt' : RoutingTable)
    (hdest : m.destination_id = some dest)
    (hmiss : ((d.rxUpdate m rx now).routing_table).lookup_route dest now =
      (rt', none)) :
    ∃ d', Device.route_message_core d m rx now =
        (d', [], Except.error .routeNotFound)
      ∧ ∀ x ∈ d'.outqueue, x ∈ d.outqueue ∨
          ((∃ disc, x.payload = .Discovery disc) ∧ x.ttl = 3) := by
  unfold Device.route_message_core
  rw [hdest]
  simp only [hmiss]
  have hout : ({ d.rxUpdate m rx now with routing_table := rt' } : Device).outqueue
      = d.outqueue := (rxUpdate_fields d m rx now).2.2.1
  by_cases hip : ({ d.rxUpdate m rx now with routing_table := rt' } :
      Device).is_route_discovery_in_progress dest = true
  · refine ⟨_, by rw [if_pos hip], ?_⟩
    intro x hx
    rw [hout] at hx
    exact Or.inl hx
  · refine ⟨_, by rw [if_neg hip], ?_⟩
    intro x hx
    unfold Device.initiate_route_discovery at hx
    by_cases h0 : dest = 0
    · rw [if_pos h0] at hx
      rw [hout] at hx
      exact Or.inl hx
    · rw [if_neg h0] at hx
      simp only at hx
      rcases mem_tryEnqueue hx with hx | hx
      · rw [hout] at hx
        exact Or.inl hx
      · subst hx
        exact Or.inr ⟨⟨_, rfl⟩, rfl⟩

/-! ## The claims -/

/-- C9 (confirmed): processing a received Discovery payload computes
`hops = original_ttl - ttl` with an unchecked `u8` subtraction, so the
dispatch function is not total — a frame whose current TTL exceeds the
payload's `original_ttl` (both wire-controlled) underflows it — while
under the precondition `ttl ≤ original_ttl` the error branch is
unreachable. -/
theorem C9_discovery_hops_underflow :
    (Device.process_message_internal (Device.init 1 0)
      { message_id := 8, source_id := 2, destination_id := some 1, ttl := 3
        req_ack := false, payload := .Discovery ⟨1, 0⟩ } none 0 = none)
    ∧ ∀ (d : Device) (m : Message) (rx : Option RxInfo) (now : Nat),
        (∀ disc, m.payload = .Discovery disc → m.ttl ≤ disc.original_ttl) →
        (d.process_message_internal m rx now).isSome = true := by
  constructor
  · rfl
  · intro d m rx now h
    unfold Device.process_message_internal
    cases hp : m.payload with
    | Data dt => simp
    | Command c => simp
    | Ack a => simp
    | Route r => simp
    | Discovery disc =>
        have hle := h disc hp
        simp only [u8sub?, if_pos hle]
        cases rx <;> simp

/-- Witness for C9: a Discovery frame whose TTL does not exceed
`original_ttl` dispatches without error. -/
theorem C9_discovery_hops_underflow_witness :
    (Device.process_message_internal (Device.init 1 0)
      { message_id := 9, source_id := 2, destination_id := some 1, ttl := 1
        req_ack := false, payload := .Discovery ⟨3, 0⟩ } none 0).isSome
      = true := by
  refine C9_discovery_hops_underflow.2 _ _ none 0 ?_
  intro disc h
  injection h with h2
  rw [← h2]
  decide

/-- C10 (confirmed): a message carrying an `Ack::AckDiscovered` payload
that is routed to another node is rewritten by `route_message` before
forwarding — the payload's `hops` is reset to 0, its `last_hop` is
replaced by this node's uid, and the destination is redirected to the
payload's previous `last_hop`; when a route is then found, the forwarded
message carries the rewritten payload, discarding the wire hop count. -/
theorem C10_ackdiscovered_rewrite (d : Device) (m : Message)
    (rx : Option RxInfo) (now : Nat) (hops : Nat) (lh : Uid)
    (hp : m.payload = .Ack (.AckDiscovered hops lh)) :
    d.ackDiscRewrite m =
      ({ d with counter := d.counter + 1 },
       Message.new_ack d.counter d.uid (some lh) (.AckDiscovered 0 d.uid)
         m.ttl m.req_ack)
    ∧ (d.ackDiscRewrite m).2.payload = .Ack (.AckDiscovered 0 d.uid)
    ∧ (d.ackDiscRewrite m).2.destination_id = some lh
    ∧ d.route_message m rx now =
        Device.route_message_core { d with counter := d.counter + 1 }
          (Message.new_ack d.counter d.uid (some lh) (.AckDiscovered 0 d.uid)
            m.ttl m.req_ack) rx now
    ∧ (∀ (rt' : RoutingTable) (route : Route),
        ((({ d with counter := d.counter + 1 } : Device).rxUpdate
            (Message.new_ack d.counter d.uid (some lh) (.AckDiscovered 0 d.uid)
              m.ttl m.req_ack) rx now).routing_table).lookup_route lh now =
          (rt', some route) →
        ∃ d' fwd, d.route_message m rx now = (d', [fwd], Except.ok ())
          ∧ fwd.payload = .Ack (.AckDiscovered 0 d.uid)) := by
  have hrw : d.ackDiscRewrite m =
      ({ d with counter := d.counter + 1 },
       Message.new_ack d.counter d.uid (some lh) (.AckDiscovered 0 d.uid)
         m.ttl m.req_ack) := by
    unfold Device.ackDiscRewrite
    rw [hp]
  have hrm : d.route_message m rx now =
      Device.route_message_core { d with counter := d.counter + 1 }
        (Message.new_ack d.counter d.uid (some lh) (.AckDiscovered 0 d.uid)
          m.ttl m.req_ack) rx now := by
    unfold Device.route_message
    rw [hrw]
  refine ⟨hrw, by rw [hrw]; rfl, by rw [hrw]; rfl, hrm, ?_⟩
  intro rt' route hfound
  have hcore := route_message_core_found { d with counter := d.counter + 1 }
    (Message.new_ack d.counter d.uid (some lh) (.AckDiscovered 0 d.uid)
      m.ttl m.req_ack) rx now lh rt' route rfl hfound
  exact ⟨_, _, hrm.trans hcore, rfl⟩

/-- Witness for C10 at a concrete AckDiscovered frame: after the rewrite
the payload carries `hops = 0` and `last_hop = self`. -/
theorem C10_ackdiscovered_rewrite_witness :
    ((Device.init 2 0).ackDiscRewrite
      { message_id := 12, source_id := 3, destination_id := some 2, ttl := 3
        req_ack := false,
        payload := .Ack (.AckDiscovered 4 9) }).2.payload =
      .Ack (.AckDiscovered 0 (Device.init 2 0).uid) :=
  (C10_ackdiscovered_rewrite (Device.init 2 0) _ none 0 4 9 rfl).2.1

/-- C1 counterexample: at node B forwarding the scenario-2 frame
(id 99), the forwarded message does not keep the received message id —
`Message::new` draws a fresh id from the node's counter — so the claimed
conjunction fails at this input. -/
theorem C1_counterexample :
    ¬ ∀ fwd ∈ (exDevB.route_message exMsgB none 0).2.1,
        fwd.ttl = exMsgB.ttl - 1 ∧ fwd.source_id = exDevB.uid ∧
        fwd.message_id = exMsgB.message_id := by
  decide

/-- C1 (amended): for every received message with a destination, not
expired, TTL within MAX_TTL, for which a route is found, the message
forwarded by `route_message` satisfies `ttl = received ttl - 1` and
`source = self`, is addressed to the route's next hop — and carries a
message id freshly drawn from the node's id counter rather than the
received message's id. -/
theorem C1_forward_ttl_source_fresh_id
    (d d2 : Device) (m m2 : Message) (rx : Option RxInfo) (now dest : Nat)
    (rt' : RoutingTable) (route : Route)
    (hrw : d.ackDiscRewrite m = (d2, m2))
    (httl : m.ttl ≤ MAX_TTL)
    (hexp : m.is_expired = false)
    (hdest : m2.destination_id = some dest)
    (hfound : ((d2.rxUpdate m2 rx now).routing_table).lookup_route dest now =
      (rt', some route)) :
    ∃ d' fwd, d.route_message m rx now = (d', [fwd], Except.ok ())
      ∧ fwd.ttl = m.ttl - 1
      ∧ fwd.source_id = d.uid
      ∧ fwd.message_id = d2.counter % U32
      ∧ fwd.destination_id = some route.next_hop := by
  have hcore := route_message_core_found d2 m2 rx now dest rt' route hdest hfound
  have hrm : d.route_message m rx now = Device.route_message_core d2 m2 rx now := by
    unfold Device.route_message
    rw [hrw]
  have httl2 : m2.ttl = m.ttl := by
    have h := ackDiscRewrite_snd_ttl d m httl
    rw [hrw] at h
    exact h
  have huid2 : d2.uid = d.uid := by
    have h := (ackDiscRewrite_fst d m).1
    rw [hrw] at h
    exact h
  refine ⟨_, _, hrm.trans hcore, ?_, ?_, ?_, ?_⟩
  · show (Message.new _ _ _ _ m2.ttl m2.req_ack).decrement_ttl.ttl = m.ttl - 1
    simp only [Message.new, Message.decrement_ttl, httl2]
    rw [Nat.min_eq_left httl]
  · show (Message.new _ _ _ _ m2.ttl m2.req_ack).decrement_ttl.source_id = d.uid
    simp only [Message.new, Message.decrement_ttl]
    rw [(rxUpdate_fields d2 m2 rx now).1, huid2]
  · show (Message.new _ _ _ _ m2.ttl m2.req_ack).decrement_ttl.message_id =
      d2.counter % U32
    simp only [Message.new, Message.decrement_ttl]
    rw [(rxUpdate_fields d2 m2 rx now).2.1]
  · rfl

/-- Witness for C1 at node B forwarding the scenario-2 frame. -/
theorem C1_forward_ttl_source_fresh_id_witness :
    ∃ d' fwd, exDevB.route_message exMsgB none 0 = (d', [fwd], Except.ok ())
      ∧ fwd.ttl = exMsgB.ttl - 1
      ∧ fwd.source_id = exDevB.uid
      ∧ fwd.message_id = exDevB.counter % U32
      ∧ fwd.destination_id = some exRouteB.next_hop :=
  C1_forward_ttl_source_fresh_id exDevB exDevB exMsgB exMsgB none 0 5 exRtB
    exRouteB (by decide) (by decide) (by decide) (by decide) (by decide)

/-- C2 counterexample: at node B forwarding the scenario-2 frame, the
relay is transmitted directly from inside the receive/dispatch handler
(`route_message` calls `tx_message`), and nothing is enqueued on
OutQueue, contradicting the claim that relays always go through OutQueue
and its drain. -/
theorem C2_counterexample :
    (exDevB.route_message exMsgB none 0).2.1 ≠ []
    ∧ (exDevB.route_message exMsgB none 0).1.outqueue = exDevB.outqueue := by
  decide

/-- C2 (amended): relaying a unicast message with a known route is
performed by transmitting the rebuilt message directly from inside
`route_message` (the receive/dispatch handler); no relay copy is placed
on OutQueue. -/
theorem C2_relay_direct_transmit
    (d d2 : Device) (m m2 : Message) (rx : Option RxInfo) (now dest : Nat)
    (rt' : RoutingTable) (route : Route)
    (hrw : d.ackDiscRewrite m = (d2, m2))
    (hdest : m2.destination_id = some dest)
    (hfound : ((d2.rxUpdate m2 rx now).routing_table).lookup_route dest now =
      (rt', some route)) :
    ∃ d' fwd, d.route_message m rx now = (d', [fwd], Except.ok ())
      ∧ d'.outqueue = d.outqueue := by
  have hcore := route_message_core_found d2 m2 rx now dest rt' route hdest hfound
  have hrm : d.route_message m rx now = Device.route_message_core d2 m2 rx now := by
    unfold Device.route_message
    rw [hrw]
  refine ⟨_, _, hrm.trans hcore, ?_⟩
  show ({ d2.rxUpdate m2 rx now with
    counter := (d2.rxUpdate m2 rx now).counter + 1
    routing_table := _ } : Device).outqueue = d.outqueue
  have h1 : (d2.rxUpdate m2 rx now).outqueue = d2.outqueue :=
    (rxUpdate_fields d2 m2 rx now).2.2.1
  have h2 : d2.outqueue = d.outqueue := by
    have h := (ackDiscRewrite_fst d m).2.1
    rw [hrw] at h
    exact h
  exact h1.trans h2

/-- Witness for C2 at node B forwarding the scenario-2 frame. -/
theorem C2_relay_direct_transmit_witness :
    ∃ d' fwd, exDevB.route_message exMsgB none 0 = (d', [fwd], Except.ok ())
      ∧ d'.outqueue = exDevB.outqueue :=
  C2_relay_direct_transmit exDevB exDevB exMsgB exMsgB none 0 5 exRtB exRouteB
    (by decide) (by decide) (by decide)

/-- C3 counterexample: node B receives the scenario-2 frame with
`ttl = 1`; a route exists, so a forwarded copy — with `ttl = 0` — is
transmitted, contradicting the claim that no relay occurs. -/
theorem C3_counterexample :
    (exDevB.enqueue_message_with_rx_info exMsgB1 none 0).2 ≠ []
    ∧ ∀ x ∈ (exDevB.enqueue_message_with_rx_info exMsgB1 none 0).2,
        x.ttl = 0 := by
  decide

/-- C3 (amended): for a received message with `ttl = 1` addressed to
another node, no relay copy is ever placed on OutQueue (the only
possible OutQueue addition is a targeted discovery message); but when a
route is found the forwarded copy is transmitted directly, with
`ttl = 0`. -/
theorem C3_ttl1_no_relay_enqueue (d : Device) (m : Message)
    (rx : Option RxInfo) (now dest : Nat)
    (httl : m.ttl = 1) (hdest : m.destination_id = some dest)
    (hne : dest ≠ d.uid) :
    (∀ x ∈ (d.enqueue_message_with_rx_info m rx now).1.outqueue,
        x ∈ d.outqueue ∨ ((∃ disc, x.payload = .Discovery disc) ∧ x.ttl = 3))
    ∧ ((d.enqueue_message_with_rx_info m rx now).2 = []
        ∨ ∃ fwd, (d.enqueue_message_with_rx_info m rx now).2 = [fwd]
            ∧ fwd.ttl = 0) := by
  have hxp : m.is_expired = false := by
    unfold Message.is_expired
    rw [httl]
    rfl
  have hbe : (dest == d.uid) = false := by
    simp [hne]
  have henq : d.enqueue_message_with_rx_info m rx now =
      ((d.route_message m rx now).1, (d.route_message m rx now).2.1) := by
    unfold Device.enqueue_message_with_rx_info
    rw [hdest]
    simp only [hbe, hxp]
    rfl
  obtain ⟨d2, m2, hrw⟩ : ∃ d2 m2, d.ackDiscRewrite m = (d2, m2) :=
    ⟨_, _, rfl⟩
  have hrm : d.route_message m rx now = Device.route_message_core d2 m2 rx now := by
    unfold Device.route_message
    rw [hrw]
  have httl2 : m2.ttl = 1 := by
    have h := ackDiscRewrite_snd_ttl d m (by rw [httl]; decide)
    rw [hrw] at h
    rw [h, httl]
  obtain ⟨dd, hdd⟩ : ∃ dd, m2.destination_id = some dd := by
    have h := ackDiscRewrite_snd_dest d m hdest
    rw [hrw] at h
    exact h
  have hout2 : d2.outqueue = d.outqueue := by
    have h := (ackDiscRewrite_fst d m).2.1
    rw [hrw] at h
    exact h
  rcases hl : ((d2.rxUpdate m2 rx now).routing_table).lookup_route dd now with
    ⟨rt', ro⟩
  cases ro with
  | some route =>
      have hcore := route_message_core_found d2 m2 rx now dd rt' route hdd hl
      constructor
      · intro x hx
        rw [henq] at hx
        rw [hrm, hcore] at hx
        have hox : (d2.rxUpdate m2 rx now).outqueue = d2.outqueue :=
          (rxUpdate_fields d2 m2 rx now).2.2.1
        left
        rw [← hout2, ← hox]
        exact hx
      · right
        refine ⟨(Message.new (d2.rxUpdate m2 rx now).counter
            (d2.rxUpdate m2 rx now).uid (some route.next_hop) m2.payload
            m2.ttl m2.req_ack).decrement_ttl, ?_, ?_⟩
        · rw [henq]
          rw [hrm, hcore]
        · show (Message.new _ _ _ _ m2.ttl m2.req_ack).decrement_ttl.ttl = 0
          simp [Message.new, Message.decrement_ttl, httl2]
  | none =>
      obtain ⟨d', hcore, hmem⟩ := route_message_core_miss d2 m2 rx now dd rt'
        hdd hl
      constructor
      · intro x hx
        rw [henq] at hx
        rw [hrm, hcore] at hx
        rcases hmem x hx with h | h
        · left
          rw [← hout2]
          exact h
        · exact Or.inr h
      · left
        rw [henq]
        rw [hrm, hcore]

/-- Witness for C3 at node B receiving the `ttl = 1` frame. -/
theorem C3_ttl1_no_relay_enqueue_witness :
    (∀ x ∈ (exDevB.enqueue_message_with_rx_info exMsgB1 none 0).1.outqueue,
        x ∈ exDevB.outqueue ∨
          ((∃ disc, x.payload = .Discovery disc) ∧ x.ttl = 3))
    ∧ ((exDevB.enqueue_message_with_rx_info exMsgB1 none 0).2 = []
        ∨ ∃ fwd, (exDevB.enqueue_message_with_rx_info exMsgB1 none 0).2 = [fwd]
            ∧ fwd.ttl = 0) :=
  C3_ttl1_no_relay_enqueue exDevB exMsgB1 none 0 5 (by decide) (by decide)
    (by decide)

/-- C4 counterexample: node B forwards the scenario-2 frame with
`req_ack = true`; the forwarded copy is transmitted with `req_ack = true`
but no pending-ack entry exists afterwards even though the table (empty)
was not full — forwarded transmissions bypass `send_message` and its
pending-ack creation. -/
theorem C4_counterexample :
    ∃ fwd, (exDevB.route_message exMsgBr none 0).2.1 = [fwd]
      ∧ fwd.req_ack = true
      ∧ (exDevB.route_message exMsgBr none 0).1.pending_acks = []
      ∧ exDevB.pending_acks.length ≠ MAX_PENDING_ACKS := by
  refine ⟨{ message_id := 0, source_id := 2, destination_id := some 7
            ttl := 2, req_ack := true, payload := .Data (.Binary [1]) }, ?_⟩
  decide

/-- C4 (amended): for every `req_ack` message transmitted through the
OutQueue drain (`send_message`, covering originated and retried
traffic), immediately after the transmit either a pending-ack entry
keyed by that message's id exists, or the pending-ack table was full;
messages forwarded by `route_message` do not pass through `send_message`
and get no pending-ack entry. -/
theorem C4_send_message_pending (d : Device) (m : Message) (now : Nat)
    (hra : m.req_ack = true)
    (hlen : d.pending_acks.length ≤ MAX_PENDING_ACKS) :
    (d.send_message m now).2 = [m]
    ∧ ((∃ a, ((d.send_message m now).1.pending_acks.lookup m.message_id) =
          some a)
        ∨ d.pending_acks.length = MAX_PENDING_ACKS) := by
  refine ⟨rfl, ?_⟩
  have h1 : (d.send_message m now).1 = d.add_pending_ack m now := by
    unfold Device.send_message
    rw [hra]
    rfl
  rw [h1]
  rcases hlk : d.pending_acks.lookup m.message_id with _ | a
  · have hadd : d.add_pending_ack m now =
        if d.pending_acks.length < MAX_PENDING_ACKS then
          { d with pending_acks := d.pending_acks ++
              [(m.message_id,
                PendingAck.new now m.payload m.destination_id m.ttl)] }
        else d := by
      unfold Device.add_pending_ack
      rw [hlk]
    rw [hadd]
    by_cases hsp : d.pending_acks.length < MAX_PENDING_ACKS
    · rw [if_pos hsp]
      left
      refine ⟨PendingAck.new now m.payload m.destination_id m.ttl, ?_⟩
      show (d.pending_acks ++ [(m.message_id, _)]).lookup m.message_id = _
      rw [lookup_append_of_none hlk]
      simp [List.lookup]
    · rw [if_neg hsp]
      right
      exact Nat.le_antisymm hlen (Nat.le_of_not_lt hsp)
  · have hadd : d.add_pending_ack m now = d := by
      unfold Device.add_pending_ack
      rw [hlk]
    rw [hadd]
    left
    exact ⟨a, hlk⟩

/-- Witness for C4: an originated `req_ack` message sent through
`send_message` on a fresh device. -/
theorem C4_send_message_pending_witness :
    ((Device.init 1 0).send_message exMsgBr 0).2 = [exMsgBr]
    ∧ ((∃ a, (((Device.init 1 0).send_message exMsgBr 0).1.pending_acks.lookup
          exMsgBr.message_id) = some a)
        ∨ (Device.init 1 0).pending_acks.length = MAX_PENDING_ACKS) :=
  C4_send_message_pending (Device.init 1 0) exMsgBr 0 (by decide) (by decide)

/-- C6 counterexample: a fresh node receiving the broadcast frame
(ttl 3) relays a copy whose TTL equals the received TTL — the relay copy
is an unmodified clone, not a ttl-decremented one. -/
theorem C6_counterexample :
    ¬ ∀ x ∈ ((Device.init 2 0).enqueue_message_with_rx_info exMsgBc
        none 0).1.outqueue, x.ttl = exMsgBc.ttl - 1 := by
  decide

/-- C6 (amended): every received broadcast (destination absent, not
expired) is both delivered locally (appended to InQueue) and relayed via
OutQueue — but the relay copy is an identical clone carrying the same
TTL as received, with no decrement (given room in both queues). -/
theorem C6_broadcast_deliver_and_relay (d : Device) (m : Message)
    (rx : Option RxInfo) (now : Nat)
    (hb : m.destination_id = none) (hexp : m.is_expired = false)
    (ho : d.outqueue.length < OUTQUEUE_SIZE)
    (hi : d.inqueue.length < INQUEUE_SIZE) :
    d.enqueue_message_with_rx_info m rx now =
      ({ d with outqueue := d.outqueue ++ [m], inqueue := d.inqueue ++ [m] },
       []) := by
  simp only [Device.enqueue_message_with_rx_info, hb, hexp, Bool.not_false,
    if_true, tryEnqueue, ho, hi]

/-- Witness for C6: the broadcast frame on a fresh node. -/
theorem C6_broadcast_deliver_and_relay_witness :
    (Device.init 2 0).enqueue_message_with_rx_info exMsgBc none 0 =
      ({ Device.init 2 0 with
           outqueue := (Device.init 2 0).outqueue ++ [exMsgBc]
           inqueue := (Device.init 2 0).inqueue ++ [exMsgBc] }, []) :=
  C6_broadcast_deliver_and_relay (Device.init 2 0) exMsgBc none 0 (by decide)
    (by decide) (by decide) (by decide)

/-- C7 counterexample: the claimed invariant fails on a reachable state —
node 1 receives a `req_ack` data frame whose TTL is already 0 and
enqueues an `Ack::Success` carrying that TTL of 0 on OutQueue. -/
theorem C7_counterexample :
    ¬ ∀ dv, Reachable dv → ∀ x ∈ dv.outqueue, x.ttl ≠ 0 := by
  intro h
  have hstep : (Device.init 1 0).step (Event.rx exMsgT0 exInfo 0) =
      some (exDevT0, []) := by decide
  have hr : Reachable exDevT0 :=
    Reachable.step _ _ _ _ (Reachable.init 1 0 (by decide)) hstep
  exact h exDevT0 hr
    { message_id := 0, source_id := 1, destination_id := some 2, ttl := 0
      req_ack := false, payload := .Ack (.Success 7) } (by decide) rfl

/-- C7 (amended): the dispatch/relay path (`enqueue_message_with_rx_info`)
never places a TTL-0 message on OutQueue — broadcast relays are guarded by
the expiry check and discovery messages carry TTL 3; acknowledgement
messages, however, inherit the received message's TTL (clamped to
MAX_TTL), so a TTL-0 reception yields a TTL-0 enqueue through
`ack_success`. -/
theorem C7_dispatch_no_ttl0_enqueue :
    (∀ (d : Device) (m : Message) (rx : Option RxInfo) (now : Nat),
        ∀ x ∈ (d.enqueue_message_with_rx_info m rx now).1.outqueue,
          x ∈ d.outqueue ∨ x.ttl ≠ 0)
    ∧ (∀ (d : Device) (m : Message),
        ∀ x ∈ (d.ack_success m).outqueue,
          x ∈ d.outqueue ∨ x.ttl = min m.ttl MAX_TTL) := by
  constructor
  · intro d m rx now x hx
    rcases hdst : m.destination_id with _ | receiver
    · by_cases hxp : m.is_expired = true
      · have hred : d.enqueue_message_with_rx_info m rx now = (d, []) := by
          simp only [Device.enqueue_message_with_rx_info, hdst]
          rw [if_neg (by rw [hxp]; decide : ¬ ((!m.is_expired) = true))]
        rw [hred] at hx
        exact Or.inl hx
      · have hxp' : m.is_expired = false := by
          cases hb : m.is_expired
          · rfl
          · exact absurd hb hxp
        have httl0 : m.ttl ≠ 0 := by
          unfold Message.is_expired at hxp'
          simpa using hxp'
        have hred : d.enqueue_message_with_rx_info m rx now =
            ({ d with outqueue := tryEnqueue d.outqueue OUTQUEUE_SIZE m
                      inqueue := tryEnqueue d.inqueue INQUEUE_SIZE m }, []) := by
          simp only [Device.enqueue_message_with_rx_info, hdst]
          rw [if_pos (by rw [hxp']; rfl : (!m.is_expired) = true)]
        rw [hred] at hx
        rcases mem_tryEnqueue hx with h | h
        · exact Or.inl h
        · subst h
          exact Or.inr httl0
    · by_cases heq : (receiver == d.uid) = true
      · have hred : d.enqueue_message_with_rx_info m rx now =
            ({ d with inqueue := tryEnqueue d.inqueue INQUEUE_SIZE m }, []) := by
          simp only [Device.enqueue_message_with_rx_info, hdst]
          rw [if_pos heq]
        rw [hred] at hx
        exact Or.inl hx
      · by_cases hxp : m.is_expired = true
        · have hred : d.enqueue_message_with_rx_info m rx now = (d, []) := by
            simp only [Device.enqueue_message_with_rx_info, hdst]
            rw [if_neg heq,
              if_neg (by rw [hxp]; decide : ¬ ((!m.is_expired) = true))]
          rw [hred] at hx
          exact Or.inl hx
        · have hxp' : m.is_expired = false := by
            cases hb : m.is_expired
            · rfl
            · exact absurd hb hxp
          have hred : d.enqueue_message_with_rx_info m rx now =
              ((d.route_message m rx now).1, (d.route_message m rx now).2.1) := by
            simp only [Device.enqueue_message_with_rx_info, hdst]
            rw [if_neg heq,
              if_pos (by rw [hxp']; rfl : (!m.is_expired) = true)]
          rw [hred] at hx
          obtain ⟨d2, m2, hrw⟩ : ∃ d2 m2, d.ackDiscRewrite m = (d2, m2) :=
            ⟨_, _, rfl⟩
          have hrm : d.route_message m rx now =
              Device.route_message_core d2 m2 rx now := by
            unfold Device.route_message
            rw [hrw]
          have hout2 : d2.outqueue = d.outqueue := by
            have h := (ackDiscRewrite_fst d m).2.1
            rw [hrw] at h
            exact h
          rw [hrm] at hx
          rcases hdd : m2.destination_id with _ | dd
          · have hred2 : Device.route_message_core d2 m2 rx now =
                (d2, [], Except.error .invalidDestination) := by
              unfold Device.route_message_core
              rw [hdd]
            rw [hred2] at hx
            rw [hout2] at hx
            exact Or.inl hx
          · rcases hl : ((d2.rxUpdate m2 rx now).routing_table).lookup_route
                dd now with ⟨rt', ro⟩
            cases ro with
            | some route =>
                have hcore := route_message_core_found d2 m2 rx now dd rt'
                  route hdd hl
                rw [hcore] at hx
                have hox : (d2.rxUpdate m2 rx now).outqueue = d2.outqueue :=
                  (rxUpdate_fields d2 m2 rx now).2.2.1
                left
                rw [← hout2, ← hox]
                exact hx
            | none =>
                obtain ⟨d', hcore, hmem⟩ := route_message_core_miss d2 m2 rx
                  now dd rt' hdd hl
                rw [hcore] at hx
                rcases hmem x hx with h | h
                · left
                  rw [← hout2]
                  exact h
                · right
                  rw [h.2]
                  decide
  · intro d m x hx
    unfold Device.ack_success at hx
    rcases mem_tryEnqueue hx with h | h
    · exact Or.inl h
    · right
      rw [h]
      rfl

/-- Witness for C7 at the broadcast frame on a fresh node. -/
theorem C7_dispatch_no_ttl0_enqueue_witness :
    exMsgBc ∈ (Device.init 1 0).outqueue ∨ exMsgBc.ttl ≠ 0 :=
  C7_dispatch_no_ttl0_enqueue.1 (Device.init 1 0) exMsgBc none 0 exMsgBc
    (by decide)

/-- C8 counterexample: cleanup of a table holding 17 destinations whose
routes are all inactive leaves one destination entry with zero routes —
the removal list holds at most 16 destinations per pass. -/
theorem C8_counterexample :
    ∃ p ∈ (exRt17.cleanup 0).routes, p.2.routes = [] := by
  decide

/-- C8 (amended): after `cleanup`, every route still present is active
and unexpired; and provided at most 16 destination entries lost all
their routes, no destination entry with zero remaining routes is left
(the removal list is capped at 16 per pass). -/
theorem C8_cleanup_valid_routes (rt : RoutingTable) (now : Nat) :
    (∀ p ∈ (rt.cleanup now).routes, ∀ r ∈ p.2.routes,
        r.is_active = true ∧ r.is_expired rt.route_ttl now = false)
    ∧ (((rt.routes.map (fun p => (p.1, cleanupEntry rt.route_ttl now p.2))).filter
          (fun p => p.2.routes.isEmpty)).length ≤ 16 →
        ∀ p ∈ (rt.cleanup now).routes, p.2.routes ≠ []) := by
  have hce : ∀ e : RouteEntry, (cleanupEntry rt.route_ttl now e).routes =
      e.routes.filter (fun r => r.is_active && !(r.is_expired rt.route_ttl now)) := by
    intro e
    unfold cleanupEntry
    dsimp only
    split
    · rfl
    · split
      · unfold RouteEntry.update_primary_idx
        split
        · rfl
        · rfl
      · rfl
  constructor
  · intro p hp r hr
    unfold RoutingTable.cleanup at hp
    simp only at hp
    have hp2 := List.mem_of_mem_filter hp
    obtain ⟨q, hq, hpq⟩ := List.mem_map.mp hp2
    rw [← hpq] at hr
    simp only at hr
    rw [hce q.2] at hr
    have hv := List.of_mem_filter hr
    constructor
    · exact (Bool.and_eq_true _ _ |>.mp hv).1
    · have := (Bool.and_eq_true _ _ |>.mp hv).2
      cases hb : Route.is_expired r rt.route_ttl now
      · rfl
      · rw [hb] at this
        exact absurd this (by decide)
  · intro hle p hp hempty
    unfold RoutingTable.cleanup at hp
    simp only at hp
    have hp2 := List.mem_of_mem_filter hp
    have hcond := List.of_mem_filter hp
    have hdead : p ∈ (rt.routes.map
        (fun p => (p.1, cleanupEntry rt.route_ttl now p.2))).filter
        (fun p => p.2.routes.isEmpty) := by
      refine List.mem_filter.mpr ⟨hp2, ?_⟩
      rw [hempty]
      rfl
    have htake : ((((rt.routes.map
        (fun p => (p.1, cleanupEntry rt.route_ttl now p.2))).filter
        (fun p => p.2.routes.isEmpty)).map (·.1)).take 16) =
        (((rt.routes.map
        (fun p => (p.1, cleanupEntry rt.route_ttl now p.2))).filter
        (fun p => p.2.routes.isEmpty)).map (·.1)) := by
      apply List.take_of_length_le
      rw [List.length_map]
      exact hle
    rw [htake] at hcond
    have hmem1 : p.1 ∈ ((rt.routes.map
        (fun p => (p.1, cleanupEntry rt.route_ttl now p.2))).filter
        (fun p => p.2.routes.isEmpty)).map (·.1) :=
      List.mem_map.mpr ⟨p, hdead, rfl⟩
    have : (((rt.routes.map
        (fun p => (p.1, cleanupEntry rt.route_ttl now p.2))).filter
        (fun p => p.2.routes.isEmpty)).map (·.1)).contains p.1 = true :=
      List.elem_eq_true_of_mem hmem1
    rw [this] at hcond
    exact absurd hcond (by decide)

/-- Witness for C8: cleanup of node B's healthy single-entry table keeps
its (valid) entry, so no empty entry remains. -/
theorem C8_cleanup_valid_routes_witness :
    (5, RouteEntry.new 0 exRouteB).2.routes ≠ [] :=
  (C8_cleanup_valid_routes exRtB 0).2 (by decide) (5, RouteEntry.new 0 exRouteB)
    (by decide)

/-! ## Lemmas for the retry pass (C5) -/

theorem tryEnqueue_len {q : List Message} {cap : Nat} {m : Message} :
    (tryEnqueue q cap m).length ≤ q.length + 1 := by
  unfold tryEnqueue
  split
  · simp
  · exact Nat.le_succ _

theorem pass1Entry_fst (now : Nat) (p : Nat × PendingAck) :
    (pass1Entry now p).1 = p.1 := by
  unfold pass1Entry
  split
  · split <;> rfl
  · rfl

theorem pass1_fst (now : Nat) :
    ∀ (l : List (Nat × PendingAck)) (rt : RoutingTable) (nr na : Nat),
      (pass1 now l rt nr na).1 = l.map (pass1Entry now) := by
  intro l
  induction l with
  | nil => intro rt nr na; rfl
  | cons p rest ih =>
      intro rt nr na
      rcases p with ⟨id, a⟩
      unfold pass1
      dsimp only
      by_cases h1 : now - a.timestamp > calculate_backoff a.attempts
      · rw [if_pos h1]
        by_cases h2 : a.attempts < MAX_ACK_ATTEMPTS
        · rw [if_pos h2]
          dsimp only
          rw [List.map_cons, ih]
          congr 1
          unfold pass1Entry
          rw [if_pos h1, if_pos h2]
        · rw [if_neg h2]
          dsimp only
          rw [List.map_cons, ih]
          congr 1
          unfold pass1Entry
          rw [if_pos h1, if_neg h2]
      · rw [if_neg h1]
        dsimp only
        rw [List.map_cons, ih]
        congr 1
        unfold pass1Entry
        rw [if_neg h1]

theorem pass1_retry_len (now : Nat) :
    ∀ (l : List (Nat × PendingAck)) (rt : RoutingTable) (nr na : Nat),
      (pass1 now l rt nr na).2.1.length ≤ l.length := by
  intro l
  induction l with
  | nil => intro rt nr na; exact Nat.le_refl _
  | cons p rest ih =>
      intro rt nr na
      rcases p with ⟨id, a⟩
      unfold pass1
      dsimp only
      rw [List.length_cons]
      by_cases h1 : now - a.timestamp > calculate_backoff a.attempts
      · rw [if_pos h1]
        by_cases h2 : a.attempts < MAX_ACK_ATTEMPTS
        · rw [if_pos h2]
          dsimp only
          rw [List.length_append]
          have hp : (if nr < 16 then [(id, a.attempts)] else []).length ≤ 1 := by
            split <;> simp
          have hr := ih rt (if nr < 16 then nr + 1 else nr) na
          omega
        · rw [if_neg h2]
          dsimp only
          have hr := ih (match a.destination_uid with
            | some dest =>
                match (rt.lookup_route dest now).2 with
                | some route =>
                    (rt.lookup_route dest now).1.record_failed_delivery
                      route.next_hop now
                | none => (rt.lookup_route dest now).1
            | none => rt) nr (if na < 16 then na + 1 else na)
          omega
      · rw [if_neg h1]
        dsimp only
        have hr := ih rt nr na
        omega

theorem pass1_retry_mem (now : Nat) :
    ∀ (l : List (Nat × PendingAck)) (rt : RoutingTable) (nr na id : Nat)
      (a : PendingAck),
      nr + l.length ≤ 16 →
      (id, a) ∈ l →
      now - a.timestamp > calculate_backoff a.attempts →
      a.attempts < MAX_ACK_ATTEMPTS →
      (id, a.attempts) ∈ (pass1 now l rt nr na).2.1 := by
  intro l
  induction l with
  | nil => intro rt nr na id a hle hm; cases hm
  | cons p rest ih =>
      intro rt nr na id a hle hm hc hatt
      rcases p with ⟨idh, ah⟩
      simp only [List.length_cons] at hle
      unfold pass1
      dsimp only
      rcases List.mem_cons.mp hm with he | hm2
      · obtain ⟨h1, h2⟩ := Prod.mk.injEq _ _ _ _ |>.mp he
        subst h1
        subst h2
        rw [if_pos hc, if_pos hatt]
        dsimp only
        have hnr : nr < 16 := by omega
        simp only [if_pos hnr]
        exact List.mem_append.mpr (Or.inl (by simp))
      · by_cases h1 : now - ah.timestamp > calculate_backoff ah.attempts
        · rw [if_pos h1]
          by_cases h2 : ah.attempts < MAX_ACK_ATTEMPTS
          · rw [if_pos h2]
            dsimp only
            refine List.mem_append.mpr (Or.inr ?_)
            refine ih rt _ na id a ?_ hm2 hc hatt
            split <;> omega
          · rw [if_neg h2]
            dsimp only
            exact ih _ nr _ id a (by omega) hm2 hc hatt
        · rw [if_neg h1]
          dsimp only
          exact ih rt nr na id a (by omega) hm2 hc hatt

theorem pass1_ack_mem (now : Nat) :
    ∀ (l : List (Nat × PendingAck)) (rt : RoutingTable) (nr na id : Nat)
      (a : PendingAck),
      na + l.length ≤ 16 →
      (id, a) ∈ l →
      now - a.timestamp > calculate_backoff a.attempts →
      ¬ a.attempts < MAX_ACK_ATTEMPTS →
      id ∈ (pass1 now l rt nr na).2.2.1 := by
  intro l
  induction l with
  | nil => intro rt nr na id a hle hm; cases hm
  | cons p rest ih =>
      intro rt nr na id a hle hm hc hatt
      rcases p with ⟨idh, ah⟩
      simp only [List.length_cons] at hle
      unfold pass1
      dsimp only
      rcases List.mem_cons.mp hm with he | hm2
      · obtain ⟨h1, h2⟩ := Prod.mk.injEq _ _ _ _ |>.mp he
        subst h1
        subst h2
        rw [if_pos hc, if_neg hatt]
        dsimp only
        have hna : na < 16 := by omega
        simp only [if_pos hna]
        exact List.mem_append.mpr (Or.inl (by simp))
      · by_cases h1 : now - ah.timestamp > calculate_backoff ah.attempts
        · rw [if_pos h1]
          by_cases h2 : ah.attempts < MAX_ACK_ATTEMPTS
          · rw [if_pos h2]
            dsimp only
            exact ih rt _ na id a (by omega) hm2 hc hatt
          · rw [if_neg h2]
            dsimp only
            refine List.mem_append.mpr (Or.inr ?_)
            refine ih _ nr _ id a ?_ hm2 hc hatt
            split <;> omega
        · rw [if_neg h1]
          dsimp only
          exact ih rt nr na id a (by omega) hm2 hc hatt

theorem pass1_ack_sub (now : Nat) :
    ∀ (l : List (Nat × PendingAck)) (rt : RoutingTable) (nr na x : Nat),
      x ∈ (pass1 now l rt nr na).2.2.1 →
      ∃ b, (x, b) ∈ l ∧ ¬ b.attempts < MAX_ACK_ATTEMPTS := by
  intro l
  induction l with
  | nil => intro rt nr na x hx; cases hx
  | cons p rest ih =>
      intro rt nr na x hx
      rcases p with ⟨idh, ah⟩
      unfold pass1 at hx
      dsimp only at hx
      by_cases h1 : now - ah.timestamp > calculate_backoff ah.attempts
      · rw [if_pos h1] at hx
        by_cases h2 : ah.attempts < MAX_ACK_ATTEMPTS
        · rw [if_pos h2] at hx
          dsimp only at hx
          obtain ⟨b, hb, hbat⟩ := ih _ _ _ _ hx
          exact ⟨b, List.mem_cons_of_mem _ hb, hbat⟩
        · rw [if_neg h2] at hx
          dsimp only at hx
          rcases List.mem_append.mp hx with hx | hx
          · have hxid : x = idh := by
              by_cases h3 : na < 16
              · rw [if_pos h3] at hx
                exact List.mem_singleton.mp hx
              · rw [if_neg h3] at hx
                cases hx
            subst hxid
            exact ⟨ah, List.mem_cons_self _ _, h2⟩
          · obtain ⟨b, hb, hbat⟩ := ih _ _ _ _ hx
            exact ⟨b, List.mem_cons_of_mem _ hb, hbat⟩
      · rw [if_neg h1] at hx
        dsimp only at hx
        obtain ⟨b, hb, hbat⟩ := ih _ _ _ _ hx
        exact ⟨b, List.mem_cons_of_mem _ hb, hbat⟩

theorem retry_message_pending (d : Device) (id : Nat) :
    (d.retry_message id).pending_acks = d.pending_acks := by
  unfold Device.retry_message
  rcases hlk : d.pending_acks.lookup id with _ | a <;> rfl

theorem retry_message_uid (d : Device) (id : Nat) :
    (d.retry_message id).uid = d.uid := by
  unfold Device.retry_message
  rcases hlk : d.pending_acks.lookup id with _ | a <;> rfl

theorem retry_message_out_mono (d : Device) (id : Nat) {x : Message}
    (hx : x ∈ d.outqueue) : x ∈ (d.retry_message id).outqueue := by
  unfold Device.retry_message
  rcases hlk : d.pending_acks.lookup id with _ | a
  · exact hx
  · exact tryEnqueue_mono hx

theorem retry_message_out_len (d : Device) (id : Nat) :
    (d.retry_message id).outqueue.length ≤ d.outqueue.length + 1 := by
  unfold Device.retry_message
  rcases hlk : d.pending_acks.lookup id with _ | a
  · exact Nat.le_succ _
  · exact tryEnqueue_len

theorem retry_fold_pending :
    ∀ (lst : List (Nat × Nat)) (d : Device),
      (lst.foldl (fun dd pr => dd.retry_message pr.1) d).pending_acks =
        d.pending_acks := by
  intro lst
  induction lst with
  | nil => intro d; rfl
  | cons h t ih =>
      intro d
      rw [List.foldl_cons, ih, retry_message_pending]

theorem retry_fold_out_mono :
    ∀ (lst : List (Nat × Nat)) (d : Device) {x : Message},
      x ∈ d.outqueue →
      x ∈ (lst.foldl (fun dd pr => dd.retry_message pr.1) d).outqueue := by
  intro lst
  induction lst with
  | nil => intro d x hx; exact hx
  | cons h t ih =>
      intro d x hx
      rw [List.foldl_cons]
      exact ih _ (retry_message_out_mono _ _ hx)

theorem retry_fold_out_mem :
    ∀ (lst : List (Nat × Nat)) (d : Device) (id att : Nat) (a2 : PendingAck),
      (id, att) ∈ lst →
      d.pending_acks.lookup id = some a2 →
      d.outqueue.length + lst.length ≤ OUTQUEUE_SIZE →
      ({ message_id := id, source_id := d.uid
         destination_id := a2.destination_uid, ttl := min a2.ttl MAX_TTL
         req_ack := true, payload := a2.payload } : Message)
        ∈ (lst.foldl (fun dd pr => dd.retry_message pr.1) d).outqueue := by
  intro lst
  induction lst with
  | nil => intro d id att a2 hm; cases hm
  | cons p rest ih =>
      intro d id att a2 hm hlk hle
      simp only [List.length_cons] at hle
      rw [List.foldl_cons]
      rcases List.mem_cons.mp hm with he | hm2
      · have hp : p = (id, att) := he.symm
        subst hp
        refine retry_fold_out_mono rest _ ?_
        unfold Device.retry_message
        rw [hlk]
        dsimp only
        have hq : d.outqueue.length < OUTQUEUE_SIZE := by omega
        exact tryEnqueue_full_mem hq
      · have h := ih (d.retry_message p.1) id att a2 hm2
          (by rw [retry_message_pending]; exact hlk)
          (by have := retry_message_out_len d p.1; omega)
        rw [retry_message_uid] at h
        exact h

theorem check_pending_acks_pending (d : Device) (now : Nat) :
    (d.check_pending_acks_and_routes now).pending_acks =
      (((pass1 now d.pending_acks d.routing_table 0 0).1.map (fun p =>
        if (pass1 now d.pending_acks d.routing_table 0 0).2.2.1.contains p.1
        then (p.1, { p.2 with is_acknowledged := true })
        else p)).filter (fun p => !p.2.is_acknowledged)) := by
  unfold Device.check_pending_acks_and_routes
  dsimp only
  rw [retry_fold_pending]

theorem check_pending_acks_outqueue (d : Device) (now : Nat) :
    (d.check_pending_acks_and_routes now).outqueue =
      ((pass1 now d.pending_acks d.routing_table 0 0).2.1.foldl
        (fun (dd : Device) pr => dd.retry_message pr.1)
        { d with
          pending_acks := (pass1 now d.pending_acks d.routing_table 0 0).1
          routing_table :=
            (pass1 now d.pending_acks d.routing_table 0 0).2.2.2 }).outqueue := by
  unfold Device.check_pending_acks_and_routes
  dsimp only

theorem calculate_backoff_eq (a : Nat) :
    calculate_backoff a =
      min (INITIAL_BACKOFF_MS * BACKOFF_FACTOR ^ a) MAX_BACKOFF_MS := by
  unfold calculate_backoff
  by_cases h : a = 0
  · subst h
    decide
  · rw [if_neg h]

theorem calculate_backoff_mono {a b : Nat} (hab : a ≤ b) :
    calculate_backoff a ≤ calculate_backoff b := by
  rw [calculate_backoff_eq, calculate_backoff_eq]
  refine min_le_min ?_ (le_refl _)
  exact Nat.mul_le_mul_left _ (Nat.pow_le_pow_right (by decide) hab)

/-- C5 counterexample: an exhausted entry (attempts = MAX_ACK_ATTEMPTS)
whose destination has no route: the entry is removed, but no delivery
failure is recorded — the routing table is completely unchanged — so the
claim's give-up clause fails at this input. -/
theorem C5_counterexample :
    (exDevGive.check_pending_acks_and_routes 20000).pending_acks = []
    ∧ (exDevGive.check_pending_acks_and_routes 20000).routing_table =
        exDevGive.routing_table := by
  decide

/-- C5 (amended): in the retry pass, the backoff is
`min(INITIAL_BACKOFF * FACTOR^attempts, MAX_BACKOFF)` with INITIAL = 500
ms and FACTOR = 2, monotone in attempts; for an unacknowledged entry past
its backoff with attempts < MAX_ACK_ATTEMPTS (= 3), a retry message
carrying the same message id (rebuilt from the stored payload,
destination and TTL with `source = self`, `req_ack = true`) is enqueued
on OutQueue — given room — and the entry's timestamp is set to now with
attempts incremented; past MAX_ACK_ATTEMPTS the entry is removed, and a
delivery failure is recorded against the next hop of the destination's
route when the routing table yields one (and not otherwise, as the
counterexample shows). -/
theorem C5_retry_backoff_giveup :
    (∀ a, calculate_backoff a =
        min (INITIAL_BACKOFF_MS * BACKOFF_FACTOR ^ a) MAX_BACKOFF_MS)
    ∧ (∀ a b, a ≤ b → calculate_backoff a ≤ calculate_backoff b)
    ∧ (∀ (d : Device) (now id : Nat) (a : PendingAck),
        (d.pending_acks.map Prod.fst).Nodup →
        d.pending_acks.length ≤ MAX_PENDING_ACKS →
        d.outqueue.length + d.pending_acks.length ≤ OUTQUEUE_SIZE →
        (id, a) ∈ d.pending_acks →
        a.is_acknowledged = false →
        now - a.timestamp > calculate_backoff a.attempts →
        a.attempts < MAX_ACK_ATTEMPTS →
        ((id, { a with timestamp := now, attempts := a.attempts + 1 }) ∈
            (d.check_pending_acks_and_routes now).pending_acks
          ∧ ∃ mr ∈ (d.check_pending_acks_and_routes now).outqueue,
              mr.message_id = id ∧ mr.source_id = d.uid ∧ mr.req_ack = true
              ∧ mr.destination_id = a.destination_uid
              ∧ mr.payload = a.payload ∧ mr.ttl = min a.ttl MAX_TTL))
    ∧ (∀ (d : Device) (now id : Nat) (a : PendingAck),
        d.pending_acks.length ≤ MAX_PENDING_ACKS →
        (id, a) ∈ d.pending_acks →
        now - a.timestamp > calculate_backoff a.attempts →
        MAX_ACK_ATTEMPTS ≤ a.attempts →
        ∀ a2, (id, a2) ∉ (d.check_pending_acks_and_routes now).pending_acks)
    ∧ (∀ (d : Device) (now id dst : Nat) (a : PendingAck)
        (rt2 : RoutingTable) (route : Route),
        d.pending_acks = [(id, a)] →
        now - a.timestamp > calculate_backoff a.attempts →
        MAX_ACK_ATTEMPTS ≤ a.attempts →
        a.destination_uid = some dst →
        d.routing_table.lookup_route dst now = (rt2, some route) →
        (d.check_pending_acks_and_routes now).pending_acks = []
        ∧ (d.check_pending_acks_and_routes now).routing_table =
            (rt2.record_failed_delivery route.next_hop now).cleanup now) := by
  refine ⟨calculate_backoff_eq, fun a b hab => calculate_backoff_mono hab,
    ?_, ?_, ?_⟩
  · -- retry branch
    intro d now id a hnd hlen hroom hm hack hc hatt
    have hfst : (pass1 now d.pending_acks d.routing_table 0 0).1 =
        d.pending_acks.map (pass1Entry now) := pass1_fst now _ _ _ _
    have hkeys : (pass1 now d.pending_acks d.routing_table 0 0).1.map Prod.fst =
        d.pending_acks.map Prod.fst := by
      rw [hfst, List.map_map]
      have hco : Prod.fst ∘ pass1Entry now = (Prod.fst :
          Nat × PendingAck → Nat) :=
        funext fun p => pass1Entry_fst now p
      rw [hco]
    have hnd1 : ((pass1 now d.pending_acks d.routing_table 0 0).1.map
        Prod.fst).Nodup := by
      rw [hkeys]
      exact hnd
    have hmem1 : (id, { a with timestamp := now, attempts := a.attempts + 1 })
        ∈ (pass1 now d.pending_acks d.routing_table 0 0).1 := by
      rw [hfst]
      refine List.mem_map.mpr ⟨(id, a), hm, ?_⟩
      unfold pass1Entry
      rw [if_pos hc, if_pos hatt]
    have hid_not : id ∉ (pass1 now d.pending_acks d.routing_table 0 0).2.2.1 := by
      intro hin
      obtain ⟨b, hbmem, hbatt⟩ := pass1_ack_sub now d.pending_acks _ 0 0 id hin
      have hba : b = a := mem_unique_of_nodup hnd hbmem hm
      rw [hba] at hbatt
      exact hbatt hatt
    have hcont : (pass1 now d.pending_acks d.routing_table 0 0).2.2.1.contains
        id = false := by
      cases hct : (pass1 now d.pending_acks d.routing_table 0 0).2.2.1.contains id
      · rfl
      · exact absurd (List.mem_of_elem_eq_true hct) hid_not
    constructor
    · rw [check_pending_acks_pending]
      refine List.mem_filter.mpr ⟨?_, ?_⟩
      · refine List.mem_map.mpr
          ⟨(id, { a with timestamp := now, attempts := a.attempts + 1 }),
           hmem1, ?_⟩
        refine if_neg ?_
        intro hct
        exact hid_not (List.mem_of_elem_eq_true hct)
      · simp [hack]
    · rw [check_pending_acks_outqueue]
      have hto : (id, a.attempts) ∈
          (pass1 now d.pending_acks d.routing_table 0 0).2.1 :=
        pass1_retry_mem now d.pending_acks d.routing_table 0 0 id a
          (by have h8 : MAX_PENDING_ACKS = 8 := rfl; omega) hm hc hatt
      have hlk1 : ({ d with
          pending_acks := (pass1 now d.pending_acks d.routing_table 0 0).1
          routing_table :=
            (pass1 now d.pending_acks d.routing_table 0 0).2.2.2 } :
          Device).pending_acks.lookup id =
          some { a with timestamp := now, attempts := a.attempts + 1 } :=
        lookup_of_mem_of_nodup hnd1 hmem1
      have hroom1 : ({ d with
          pending_acks := (pass1 now d.pending_acks d.routing_table 0 0).1
          routing_table :=
            (pass1 now d.pending_acks d.routing_table 0 0).2.2.2 } :
          Device).outqueue.length +
          (pass1 now d.pending_acks d.routing_table 0 0).2.1.length ≤
          OUTQUEUE_SIZE := by
        have h2 := pass1_retry_len now d.pending_acks d.routing_table 0 0
        show d.outqueue.length + _ ≤ _
        omega
      have hmr := retry_fold_out_mem
        (pass1 now d.pending_acks d.routing_table 0 0).2.1
        { d with
          pending_acks := (pass1 now d.pending_acks d.routing_table 0 0).1
          routing_table :=
            (pass1 now d.pending_acks d.routing_table 0 0).2.2.2 }
        id a.attempts { a with timestamp := now, attempts := a.attempts + 1 }
        hto hlk1 hroom1
      exact ⟨_, hmr, rfl, rfl, rfl, rfl, rfl, rfl⟩
  · -- give-up branch: removal
    intro d now id a hlen hm hc hatt a2 hmem
    rw [check_pending_acks_pending] at hmem
    obtain ⟨hmm, hpred⟩ := List.mem_filter.mp hmem
    obtain ⟨q, hq, hqe⟩ := List.mem_map.mp hmm
    have hidin : id ∈ (pass1 now d.pending_acks d.routing_table 0 0).2.2.1 :=
      pass1_ack_mem now d.pending_acks d.routing_table 0 0 id a
        (by have h8 : MAX_PENDING_ACKS = 8 := rfl; omega)
        hm hc (Nat.not_lt.mpr hatt)
    have hq1 : q.1 = id := by
      have h1 := congrArg Prod.fst hqe
      revert h1
      split
      · intro h1
        exact h1
      · intro h1
        exact h1
    have hcont : (pass1 now d.pending_acks d.routing_table 0 0).2.2.1.contains
        q.1 = true := by
      rw [hq1]
      exact List.elem_eq_true_of_mem hidin
    rw [if_pos hcont] at hqe
    have ha2 : a2.is_acknowledged = true := by
      have h2 := congrArg (fun p => p.2.is_acknowledged) hqe
      exact h2.symm
    simp [ha2] at hpred
  · -- give-up branch: failure record (single-entry table)
    intro d now id dst a rt2 route hpend hc hatt hdst hlook
    have hp1 : pass1 now [(id, a)] d.routing_table 0 0 =
        ([(id, a)], [], [id],
         rt2.record_failed_delivery route.next_hop now) := by
      unfold pass1
      dsimp only
      rw [if_pos hc, if_neg (Nat.not_lt.mpr hatt), hdst]
      dsimp only
      rw [hlook]
      rfl
    have hcid : (([id] : List Nat).contains id) = true :=
      List.elem_eq_true_of_mem (List.mem_singleton.mpr rfl)
    unfold Device.check_pending_acks_and_routes
    rw [hpend, hp1]
    dsimp only
    rw [List.foldl_nil]
    constructor
    · simp [hcid]
    · rfl

/-- Witness for C5: the single retryable entry at time 20000 ms gets its
retry enqueued, timestamp reset and attempts bumped. -/
theorem C5_retry_backoff_giveup_witness :
    ((77, { exPaRetry with
            timestamp := 20000
            attempts := exPaRetry.attempts + 1 }) ∈
        (exDevRetry.check_pending_acks_and_routes 20000).pending_acks
      ∧ ∃ mr ∈ (exDevRetry.check_pending_acks_and_routes 20000).outqueue,
          mr.message_id = 77 ∧ mr.source_id = exDevRetry.uid
          ∧ mr.req_ack = true
          ∧ mr.destination_id = exPaRetry.destination_uid
          ∧ mr.payload = exPaRetry.payload
          ∧ mr.ttl = min exPaRetry.ttl MAX_TTL) :=
  C5_retry_backoff_giveup.2.2.1 exDevRetry 20000 77 exPaRetry (by decide)
    (by decide) (by decide) (by decide) (by decide) (by decide) (by decide)

end Quadranet
